import Mathlib

/-!
# BoolShapes: a shallow embedding of the add-on's orchestration logic

This file embeds the Python source of the BoolShapes Blender add-on
(`utils.py`, `previews.py`) as Lean definitions over an explicit Blender
session state, and proves the specification claims about it.

Modelling conventions:
* Blender data-blocks (objects, meshes, cameras, lights, worlds, scenes,
  collections) live in lists inside a session state `BState`; every
  data-block carries a numeric id drawn from the `nextId` counter.
* Blender renames a data-block on a name collision by appending a numeric
  suffix (".001", ".002", ...); this is modelled by `freshName`.
* Floating point coordinates are modelled as rationals: all the arithmetic
  performed by the source (scaling by 1.5, 3, 0.8, halving) is exact.
* The file system is reduced to the parts the source touches: the
  assets.blend library is `libFile : Option (List LibShape)` (`none` means
  the file does not exist), and the previews directory is the list of file
  paths `previewFiles`.
* Calls into `bpy.ops.render.render` are recorded as `RenderEvent` entries
  capturing a snapshot of the scene's render settings and camera, since the
  actual rasterisation happens inside Blender.
* The camera orientation computed via `to_track_quat('-Z', 'Y')` is kept
  symbolic as `Rotation.track "-Z" "Y" direction`: the source delegates the
  trigonometry to mathutils, and the claims only concern which axis is
  pointed along which direction.
* Fallible Blender calls that the source guards with try/except
  (`modifier_apply`, `libraries.write`) take an explicit success oracle
  argument, so both outcomes are representable.
-/

/-- A 3d vector with exact rational coordinates. -/
structure Vec3 where
  x : ℚ
  y : ℚ
  z : ℚ
deriving DecidableEq, Repr

def Vec3.add (a b : Vec3) : Vec3 := ⟨a.x + b.x, a.y + b.y, a.z + b.z⟩

def Vec3.sub (a b : Vec3) : Vec3 := ⟨a.x - b.x, a.y - b.y, a.z - b.z⟩

def Vec3.smul (q : ℚ) (a : Vec3) : Vec3 := ⟨q * a.x, q * a.y, q * a.z⟩

/-- Componentwise product, used when applying an object scale to vertices. -/
def Vec3.mulV (a b : Vec3) : Vec3 := ⟨a.x * b.x, a.y * b.y, a.z * b.z⟩

def Vec3.zero : Vec3 := ⟨0, 0, 0⟩

def Vec3.one : Vec3 := ⟨1, 1, 1⟩

/-- A modifier on an object; the source only ever creates BOOLEAN modifiers. -/
structure Modifier where
  name : String
  modType : String
  operation : String
  object : Option Nat
  solver : String
deriving DecidableEq, Repr

/-- The data-block an object points at. -/
inductive ObjData where
  | mesh (mid : Nat)
  | camera (cid : Nat)
  | light (lid : Nat)
deriving DecidableEq, Repr

/-- Object rotation: either Euler angles, or the symbolic result of
mathutils' to_track_quat, aligning the given local axis with a direction. -/
inductive Rotation where
  | euler (v : Vec3)
  | track (axis : String) (up : String) (dir : Vec3)
deriving DecidableEq, Repr

/-- An entry of bpy.data.objects. -/
structure Obj where
  id : Nat
  name : String
  data : ObjData
  location : Vec3 := Vec3.zero
  rotation : Rotation := .euler Vec3.zero
  scale : Vec3 := Vec3.one
  displayType : String := "TEXTURED"
  modifiers : List Modifier := []
  selected : Bool := false
deriving DecidableEq, Repr

/-- The object's type string, as exposed by obj.type in bpy. -/
def Obj.objType (o : Obj) : String :=
  match o.data with
  | .mesh _ => "MESH"
  | .camera _ => "CAMERA"
  | .light _ => "LIGHT"

/-- A mesh data-block, abstracted to its axis-aligned bounding box. -/
structure MeshData where
  id : Nat
  bboxMin : Vec3 := Vec3.zero
  bboxMax : Vec3 := Vec3.zero
deriving DecidableEq, Repr

/-- A camera data-block. -/
structure CamData where
  id : Nat
  camType : String := "PERSP"
  orthoScale : ℚ := 6
deriving DecidableEq, Repr

/-- A light data-block. -/
structure LightData where
  id : Nat
  lightType : String := "POINT"
  energy : ℚ := 1
deriving DecidableEq, Repr

/-- A world data-block. -/
structure WorldData where
  id : Nat
  name : String
  useNodes : Bool := true
deriving DecidableEq, Repr

/-- Per-scene render settings; defaults are irrelevant to the claims since
the source overwrites every field it relies on before rendering. -/
structure RenderSettings where
  engine : String := ""
  resolutionX : Nat := 1920
  resolutionY : Nat := 1080
  filmTransparent : Bool := false
  filepath : String := ""
  fileFormat : String := "PNG"
deriving DecidableEq, Repr

/-- A scene: its master collection contents, linked child collections,
active camera, world, render settings and 3d cursor. -/
structure Scene where
  id : Nat
  name : String
  objects : List Nat := []
  children : List String := []
  camera : Option Nat := none
  world : Option Nat := none
  render : RenderSettings := {}
  cursor : Vec3 := Vec3.zero
deriving DecidableEq, Repr

/-- A named collection in bpy.data.collections. -/
structure Collection where
  name : String
  colorTag : String := "NONE"
  objects : List Nat := []
deriving DecidableEq, Repr

/-- One object stored in the assets.blend library file, abstracted to its
name and its mesh bounding box. -/
structure LibShape where
  name : String
  bboxMin : Vec3 := Vec3.zero
  bboxMax : Vec3 := Vec3.zero
deriving DecidableEq, Repr

/-- Snapshot of the active camera at render time. -/
structure CamSnapshot where
  location : Vec3
  camType : String
  orthoScale : ℚ
  rotation : Rotation
deriving DecidableEq, Repr

/-- Record of one bpy.ops.render.render call. -/
structure RenderEvent where
  sceneName : String
  engine : String
  resolutionX : Nat
  resolutionY : Nat
  filmTransparent : Bool
  fileFormat : String
  filepath : String
  cam : Option CamSnapshot
deriving DecidableEq, Repr

/-- The Blender session state visible to the add-on. -/
structure BState where
  nextId : Nat := 0
  objects : List Obj := []
  meshes : List MeshData := []
  cams : List CamData := []
  lights : List LightData := []
  worlds : List WorldData := []
  scenes : List Scene := []
  collections : List Collection := []
  windowScene : Nat := 0
  activeObject : Option Nat := none
  solverType : String := "MANIFOLD"
  libFile : Option (List LibShape) := none
  previewFiles : List String := []
  renders : List RenderEvent := []
deriving DecidableEq, Repr

/-! ## Name collision handling

Blender keeps data-block names unique; assigning a taken name makes Blender
append the first free numeric suffix ".001", ".002", ... -/

/-- Three digit zero padded suffix number, as Blender prints it. -/
def pad3 (n : Nat) : String :=
  if n < 10 then "00" ++ toString n
  else if n < 100 then "0" ++ toString n
  else toString n

/-- The name Blender actually assigns when the requested name is asked for
while the names in taken are in use. -/
def freshName (base : String) (taken : List String) : String :=
  if taken.contains base then
    (((List.range (taken.length + 1)).map
        (fun i => base ++ "." ++ pad3 (i + 1))).find?
      (fun c => !taken.contains c)).getD base
  else base

/-! ## Session state primitives -/

def allObjNames (s : BState) : List String := s.objects.map (·.name)

def allSceneNames (s : BState) : List String := s.scenes.map (·.name)

/-- Look up an object by id (a Python object reference). -/
def getObj (s : BState) (i : Nat) : Option Obj :=
  s.objects.find? (fun o => o.id == i)

/-- Look up a scene by id. -/
def getScene (s : BState) (i : Nat) : Option Scene :=
  s.scenes.find? (fun sc => sc.id == i)

/-- Look up a mesh data-block by id. -/
def getMesh (s : BState) (i : Nat) : Option MeshData :=
  s.meshes.find? (fun m => m.id == i)

/-- bpy.data.objects.new: creates an object data-block (linked nowhere),
renaming on collision. Returns the new state and the object id. -/
def newObjectRaw (name : String) (d : ObjData) (s : BState) : BState × Nat :=
  let nm := freshName name (allObjNames s)
  let o : Obj := { id := s.nextId, name := nm, data := d }
  ({ s with objects := s.objects ++ [o], nextId := s.nextId + 1 }, s.nextId)

/-- Apply f to the object with the given id. -/
def updateObj (i : Nat) (f : Obj → Obj) (s : BState) : BState :=
  { s with objects := s.objects.map (fun o => if o.id = i then f o else o) }

/-- obj.name = nm: Blender suffixes the renamed object when another
data-block already holds the requested name. -/
def renameObject (i : Nat) (nm : String) (s : BState) : BState :=
  let taken := (s.objects.filter (fun o => o.id != i)).map (·.name)
  updateObj i (fun o => { o with name := freshName nm taken }) s

/-- bpy.data.objects.remove with do_unlink: drops the object and unlinks it
from every scene master collection and named collection. -/
def removeObject (i : Nat) (s : BState) : BState :=
  { s with
    objects := s.objects.filter (fun o => o.id != i),
    scenes := s.scenes.map (fun sc =>
      { sc with
        objects := sc.objects.filter (fun j => j != i),
        camera := if sc.camera = some i then none else sc.camera }),
    collections := s.collections.map (fun c =>
      { c with objects := c.objects.filter (fun j => j != i) }),
    activeObject := if s.activeObject = some i then none else s.activeObject }

/-- bpy.data.meshes.new, abstracted to its bounding box. -/
def newMesh (bmin bmax : Vec3) (s : BState) : BState × Nat :=
  ({ s with meshes := s.meshes ++ [{ id := s.nextId, bboxMin := bmin, bboxMax := bmax }],
            nextId := s.nextId + 1 }, s.nextId)

/-- mesh.users: number of objects whose data points at this mesh. -/
def meshUsers (mid : Nat) (s : BState) : Nat :=
  (s.objects.filter (fun o => o.data == ObjData.mesh mid)).length

def removeMesh (mid : Nat) (s : BState) : BState :=
  { s with meshes := s.meshes.filter (fun m => m.id != mid) }

def newCamData (camType : String) (orthoScale : ℚ) (s : BState) : BState × Nat :=
  ({ s with cams := s.cams ++ [{ id := s.nextId, camType := camType, orthoScale := orthoScale }],
            nextId := s.nextId + 1 }, s.nextId)

def removeCamData (cid : Nat) (s : BState) : BState :=
  { s with cams := s.cams.filter (fun c => c.id != cid) }

def newLightData (lightType : String) (energy : ℚ) (s : BState) : BState × Nat :=
  ({ s with lights := s.lights ++ [{ id := s.nextId, lightType := lightType, energy := energy }],
            nextId := s.nextId + 1 }, s.nextId)

def removeLightData (lid : Nat) (s : BState) : BState :=
  { s with lights := s.lights.filter (fun l => l.id != lid) }

def newWorld (name : String) (s : BState) : BState × Nat :=
  ({ s with worlds := s.worlds ++ [{ id := s.nextId, name := name }],
            nextId := s.nextId + 1 }, s.nextId)

def removeWorldByName (name : String) (s : BState) : BState :=
  { s with worlds := s.worlds.filter (fun w => w.name != name) }

def updateWorld (i : Nat) (f : WorldData → WorldData) (s : BState) : BState :=
  { s with worlds := s.worlds.map (fun w => if w.id = i then f w else w) }

/-- bpy.data.scenes.new, renaming on collision. -/
def newScene (name : String) (s : BState) : BState × Nat :=
  let nm := freshName name (allSceneNames s)
  ({ s with scenes := s.scenes ++ [{ id := s.nextId, name := nm }],
            nextId := s.nextId + 1 }, s.nextId)

/-- Apply f to the scene with the given id. -/
def updateScene (i : Nat) (f : Scene → Scene) (s : BState) : BState :=
  { s with scenes := s.scenes.map (fun sc => if sc.id = i then f sc else sc) }

def removeScene (i : Nat) (s : BState) : BState :=
  { s with scenes := s.scenes.filter (fun sc => sc.id != i) }

/-- os.remove / libraries.write at the file level: replace the library
file content (none encodes a deleted file). -/
def setLibFile (v : Option (List LibShape)) (s : BState) : BState :=
  { s with libFile := v }

/-- bpy.context.window.scene assignment. -/
def setWindowScene (i : Nat) (s : BState) : BState :=
  { s with windowScene := i }

/-- os.remove of one preview image. -/
def removePreviewFile (p : String) (s : BState) : BState :=
  { s with previewFiles := s.previewFiles.filter (fun q => q != p) }

def getCollection (s : BState) (name : String) : Option Collection :=
  s.collections.find? (fun c => c.name == name)

def updateCollection (name : String) (f : Collection → Collection) (s : BState) : BState :=
  { s with collections := s.collections.map (fun c => if c.name = name then f c else c) }

/-- The world-space bounding box of an object, for the translation-only
placements the source produces (library shapes are stored with identity
rotation and unit scale): location plus the local mesh bounds. -/
def worldBBox (s : BState) (i : Nat) : Vec3 × Vec3 :=
  match getObj s i with
  | none => (Vec3.zero, Vec3.zero)
  | some o =>
    match o.data with
    | .mesh m =>
      match getMesh s m with
      | some md => (o.location.add md.bboxMin, o.location.add md.bboxMax)
      | none => (o.location, o.location)
    | _ => (o.location, o.location)

/-- Largest axis-aligned extent of a bounding box. -/
def maxExtent (bmin bmax : Vec3) : ℚ :=
  max (bmax.x - bmin.x) (max (bmax.y - bmin.y) (bmax.z - bmin.z))

/-- Center of a bounding box. -/
def bboxCenter (bmin bmax : Vec3) : Vec3 := Vec3.smul (1/2) (bmin.add bmax)

/-! ## Paths (utils.py lines 36-58)

The add-on install directory is determined at runtime from the file
location; it is abstracted here as a constant. -/

def joinPath (a b : String) : String := a ++ "/" ++ b

/-- get_addon_path: the add-on install directory, abstracted. -/
def get_addon_path : String := "addon"

/-- get_assets_dir (utils.py line 41). -/
def get_assets_dir : String := joinPath get_addon_path "assets"

/-- get_assets_path (utils.py line 46). -/
def get_assets_path : String := joinPath get_assets_dir "assets.blend"

/-- get_previews_dir (utils.py line 56). -/
def get_previews_dir : String := joinPath get_assets_dir "previews"

/-! ## Solvers (utils.py lines 10-33) -/

/-- Python tuple comparison is lexicographic; bpy.app.version is a triple. -/
def versionGE (v w : Nat × Nat × Nat) : Bool :=
  v.1 > w.1 || (v.1 == w.1 && (v.2.1 > w.2.1 || (v.2.1 == w.2.1 && v.2.2 >= w.2.2)))

/-- get_available_solvers (utils.py lines 10-25): the enum item triples
offered for the boolean solver, depending on the Blender version. -/
def get_available_solvers (version : Nat × Nat × Nat) : List (String × String × String) :=
  if versionGE version (5, 0, 0) then
    [("MANIFOLD", "Manifold", "Fast manifold solver (recommended)"),
     ("EXACT", "Exact", "Precise boolean operations"),
     ("FLOAT", "Float", "Fast floating point solver")]
  else
    [("EXACT", "Exact", "Precise boolean operations"),
     ("FAST", "Fast", "Fast boolean operations")]

/-- get_default_solver (utils.py lines 28-33). -/
def get_default_solver (version : Nat × Nat × Nat) : String :=
  if versionGE version (5, 0, 0) then "MANIFOLD" else "EXACT"

/-! ## Cutters collection (utils.py lines 61-82) -/

/-- get_or_create_cutters_collection (utils.py lines 61-70): looks up the
boolean_cutters collection by name, creating it (linked under the active
scene, with the red color tag) when absent. -/
def get_or_create_cutters_collection (s : BState) : BState :=
  let name := "boolean_cutters"
  if s.collections.any (fun c => c.name == name) then s
  else
    let s1 := { s with collections := s.collections ++ [{ name := name, colorTag := "COLOR_01" }] }
    updateScene s1.windowScene (fun sc => { sc with children := sc.children ++ [name] }) s1

/-- move_to_cutters_collection (utils.py lines 73-82): unlink the object
from every collection it is in (scene master collections included) and link
it into boolean_cutters. -/
def move_to_cutters_collection (i : Nat) (s : BState) : BState :=
  let s1 := get_or_create_cutters_collection s
  let s2 := { s1 with
    scenes := s1.scenes.map (fun sc => { sc with objects := sc.objects.filter (fun j => j != i) }),
    collections := s1.collections.map (fun c => { c with objects := c.objects.filter (fun j => j != i) }) }
  updateCollection "boolean_cutters" (fun c => { c with objects := c.objects ++ [i] }) s2

/-! ## Library reads (utils.py lines 85-140) -/

/-- get_library_objects (utils.py lines 85-101): names stored in
assets.blend, or the empty list when the file does not exist. -/
def get_library_objects (s : BState) : List String :=
  match s.libFile with
  | none => []
  | some entries => entries.map (·.name)

/-- One name requested through bpy.data.libraries.load(..., link=False):
when present in the file, a fresh mesh and a fresh object (name suffixed on
collision with the session) are appended to bpy.data. -/
def libraryLoadOne (name : String) (s : BState) : BState × Option Nat :=
  match s.libFile with
  | none => (s, none)
  | some entries =>
    match entries.find? (fun e => e.name == name) with
    | none => (s, none)
    | some e =>
      let r1 := newMesh e.bboxMin e.bboxMax s
      let r2 := newObjectRaw name (.mesh r1.2) r1.1
      (r2.1, some r2.2)

/-- Several names requested through one libraries.load call; missing names
produce no object (the source filters the Nones out). -/
def libraryLoadMany : List String → BState → BState × List Nat
  | [], s => (s, [])
  | n :: rest, s =>
    let r1 := libraryLoadOne n s
    let r2 := libraryLoadMany rest r1.1
    (r2.1, (match r1.2 with | some i => [i] | none => []) ++ r2.2)

/-- bpy.data.libraries.write: replaces the library file contents with the
given objects, stored under their current session names. -/
def libraryWrite (ids : List Nat) (s : BState) : BState :=
  let entries := ids.filterMap (fun i =>
    (getObj s i).map (fun o =>
      match o.data with
      | .mesh m =>
        match getMesh s m with
        | some md => { name := o.name, bboxMin := md.bboxMin, bboxMax := md.bboxMax : LibShape }
        | none => { name := o.name : LibShape }
      | _ => { name := o.name : LibShape }))
  { s with libFile := some entries }

/-- import_shape_from_library (utils.py lines 104-140). -/
def import_shape_from_library (shape_name : String) (s : BState) : BState × Option Nat :=
  match s.libFile with
  | none => (s, none)
  | some _ =>
    let r := libraryLoadOne shape_name s
    match r.2 with
    | none => (r.1, none)
    | some oid =>
      let s2 := updateScene r.1.windowScene
        (fun sc => { sc with objects := sc.objects ++ [oid] }) r.1
      let s3 := updateObj oid (fun o => { o with displayType := "TEXTURED" }) s2
      let cur := ((getScene s3 s3.windowScene).map (·.cursor)).getD Vec3.zero
      let s4 := updateObj oid (fun o => { o with location := cur }) s3
      let s5 := { s4 with
        objects := s4.objects.map (fun o => { o with selected := o.id == oid }),
        activeObject := some oid }
      (s5, some oid)

/-! ## Adding to the library (utils.py lines 143-217) -/

/-- Outcome of a Python call that can also end by raising. -/
inductive PyOutcome where
  | ret (ok : Bool) (msg : String)
  | exc
deriving DecidableEq, Repr

/-- Cleanup step of add_shape_to_library (utils.py lines 206-210): drop the
object, then its mesh when it has no users left. -/
def cleanupSavedObj (i : Nat) (s : BState) : BState :=
  match getObj s i with
  | none => s
  | some o =>
    let s1 := removeObject i s
    match o.data with
    | .mesh m => if meshUsers m s1 = 0 then removeMesh m s1 else s1
    | _ => s1

/-- add_shape_to_library (utils.py lines 143-217). The writeOk oracle is
the success of bpy.data.libraries.write; on failure the exception escapes
through the finally block that restores the source name. -/
def add_shape_to_library (objId : Nat) (writeOk : Bool) (s : BState) : BState × PyOutcome :=
  match getObj s objId with
  | none => (s, .exc)
  | some obj =>
    let original_name := obj.name
    let existing := get_library_objects s
    if existing.contains original_name then
      (s, .ret false ("Object '" ++ original_name ++ "' already exists in library"))
    else
      let s1 := renameObject objId "__BOOLSHAPES_SOURCE_TEMP__" s
      let bb := match obj.data with
        | .mesh m =>
          match getMesh s1 m with
          | some md => (md.bboxMin, md.bboxMax)
          | none => (Vec3.zero, Vec3.zero)
        | _ => (Vec3.zero, Vec3.zero)
      let bb2 := if obj.scale ≠ Vec3.one
        then (obj.scale.mulV bb.1, obj.scale.mulV bb.2) else bb
      let r1 := newMesh bb2.1 bb2.2 s1
      let nm := freshName original_name (allObjNames r1.1)
      let newO : Obj := { id := r1.1.nextId, name := nm, data := .mesh r1.2,
                          location := Vec3.zero, rotation := .euler Vec3.zero,
                          scale := Vec3.one }
      let newId := r1.1.nextId
      let s2 := { r1.1 with objects := r1.1.objects ++ [newO], nextId := r1.1.nextId + 1 }
      let r2 := if s2.libFile.isSome ∧ existing ≠ []
        then libraryLoadMany existing s2 else (s2, [])
      let allIds := newId :: r2.2
      if writeOk then
        let s3 := libraryWrite allIds r2.1
        let s4 := allIds.foldl (fun st i => cleanupSavedObj i st) s3
        let s5 := renameObject objId original_name s4
        (s5, .ret true ("Added '" ++ original_name ++ "' to library"))
      else
        (renameObject objId original_name r2.1, .exc)

/-! ## Removing from the library (utils.py lines 219-269) -/

/-- remove_shape_from_library (utils.py lines 219-269). -/
def remove_shape_from_library (shape_name : String) (s : BState) : BState × Bool × String :=
  match s.libFile with
  | none => (s, false, "Library file does not exist")
  | some _ =>
    let all := get_library_objects s
    if ¬ all.contains shape_name then
      (s, false, "Object '" ++ shape_name ++ "' not found in library")
    else
      let keep := all.filter (fun n => n != shape_name)
      if keep.isEmpty then
        ({ s with libFile := some [] }, true,
         "Removed '" ++ shape_name ++ "' from library (library now empty)")
      else
        let r := libraryLoadMany keep s
        let s2 := setLibFile none r.1
        let s3 := libraryWrite r.2 s2
        let s4 := r.2.foldl (fun st i => cleanupSavedObj i st) s3
        let preview_path := joinPath get_previews_dir (shape_name ++ ".png")
        let s5 := if s4.previewFiles.contains preview_path
          then removePreviewFile preview_path s4
          else s4
        (s5, true, "Removed '" ++ shape_name ++ "' from library")

/-! ## Boolean operations (utils.py lines 297-420) -/

/-- apply_boolean_operation (utils.py lines 297-352). applyErr is the
oracle for the modifier_apply call in destructive mode: none means it
succeeded, some e means it raised RuntimeError e. -/
def apply_boolean_operation (target cutter : Option Nat) (operation : String)
    (destructive : Bool) (solver : Option String) (applyErr : Option String)
    (s : BState) : BState × Bool × String :=
  match target, cutter with
  | some t, some c =>
    match getObj s t, getObj s c with
    | some tobj, some cobj =>
      if tobj.objType != "MESH" || cobj.objType != "MESH" then
        (s, false, "Both objects must be meshes")
      else
        let slv := solver.getD s.solverType
        let modName := "Bool_" ++ operation ++ "_" ++ cobj.name
        let m : Modifier := { name := modName, modType := "BOOLEAN",
                              operation := operation, object := some c, solver := slv }
        let s1 := updateObj t (fun o => { o with modifiers := o.modifiers ++ [m] }) s
        if destructive then
          let s2 := { s1 with activeObject := some t }
          match applyErr with
          | some e => (s2, false, "Failed to apply modifier: " ++ e)
          | none =>
            let s3 := updateObj t
              (fun o => { o with modifiers := o.modifiers.filter (fun mm => mm.name != modName) }) s2
            (removeObject c s3, true, "Applied " ++ operation ++ " boolean (destructive)")
        else
          let s2 := move_to_cutters_collection c s1
          let s3 := updateObj c (fun o => { o with displayType := "BOUNDS" }) s2
          (s3, true, "Applied " ++ operation ++ " boolean (non-destructive)")
    | _, _ => (s, false, "Invalid target or cutter object")
  | _, _ => (s, false, "Invalid target or cutter object")

/-- apply_slice_operation (utils.py lines 355-420). applyOk1/applyOk2 are
the oracles for the two modifier_apply calls in destructive mode (their
RuntimeErrors are swallowed by the source). -/
def apply_slice_operation (target cutter : Option Nat) (destructive : Bool)
    (solver : Option String) (applyOk1 applyOk2 : Bool)
    (s : BState) : BState × Bool × String :=
  match target, cutter with
  | some t, some c =>
    match getObj s t, getObj s c with
    | some tobj, some cobj =>
      if tobj.objType != "MESH" || cobj.objType != "MESH" then
        (s, false, "Both objects must be meshes")
      else
        let slv := solver.getD s.solverType
        let bb := match tobj.data with
          | .mesh m =>
            match getMesh s m with
            | some md => (md.bboxMin, md.bboxMax)
            | none => (Vec3.zero, Vec3.zero)
          | _ => (Vec3.zero, Vec3.zero)
        let r1 := newMesh bb.1 bb.2 s
        let copyName := freshName (tobj.name ++ "_slice") (allObjNames r1.1)
        let copyObj : Obj := { tobj with id := r1.1.nextId, name := copyName, data := .mesh r1.2 }
        let copyId := r1.1.nextId
        let s2 := { r1.1 with objects := r1.1.objects ++ [copyObj], nextId := r1.1.nextId + 1 }
        let s3 := updateScene s2.windowScene
          (fun sc => { sc with objects := sc.objects ++ [copyId] }) s2
        let mi : Modifier := { name := "Bool_INTERSECT_" ++ cobj.name, modType := "BOOLEAN",
                               operation := "INTERSECT", object := some c, solver := slv }
        let s4 := updateObj copyId (fun o => { o with modifiers := o.modifiers ++ [mi] }) s3
        let md : Modifier := { name := "Bool_DIFFERENCE_" ++ cobj.name, modType := "BOOLEAN",
                               operation := "DIFFERENCE", object := some c, solver := slv }
        let s5 := updateObj t (fun o => { o with modifiers := o.modifiers ++ [md] }) s4
        if destructive then
          let s6 := { s5 with activeObject := some copyId }
          let s7 := if applyOk1
            then updateObj copyId
              (fun o => { o with modifiers := o.modifiers.filter (fun mm => mm.name != mi.name) }) s6
            else s6
          let s8 := { s7 with activeObject := some t }
          let s9 := if applyOk2
            then updateObj t
              (fun o => { o with modifiers := o.modifiers.filter (fun mm => mm.name != md.name) }) s8
            else s8
          (removeObject c s9, true, "Applied slice operation (destructive)")
        else
          let s6 := move_to_cutters_collection c s5
          let s7 := updateObj c (fun o => { o with displayType := "BOUNDS" }) s6
          (s7, true, "Applied slice operation (non-destructive)")
    | _, _ => (s, false, "Invalid target or cutter object")
  | _, _ => (s, false, "Invalid target or cutter object")

/-! ## Preview generation (previews.py lines 55-199) -/

/-- Snapshot of a scene's active camera, taken at render time. -/
def camSnapshotOf (s : BState) (sc : Scene) : Option CamSnapshot :=
  sc.camera.bind (fun ci =>
    (getObj s ci).bind (fun o =>
      match o.data with
      | .camera cd =>
        (s.cams.find? (fun c => c.id == cd)).map (fun c =>
          { location := o.location, camType := c.camType,
            orthoScale := c.orthoScale, rotation := o.rotation })
      | _ => none))

/-- bpy.ops.render.render(write_still=True): records the render and writes
the scene's output file. -/
def renderWriteStill (sid : Nat) (s : BState) : BState :=
  match getScene s sid with
  | none => s
  | some sc =>
    let ev : RenderEvent :=
      { sceneName := sc.name, engine := sc.render.engine,
        resolutionX := sc.render.resolutionX, resolutionY := sc.render.resolutionY,
        filmTransparent := sc.render.filmTransparent, fileFormat := sc.render.fileFormat,
        filepath := sc.render.filepath, cam := camSnapshotOf s sc }
    { s with renders := s.renders ++ [ev],
             previewFiles := if s.previewFiles.contains sc.render.filepath
               then s.previewFiles else s.previewFiles ++ [sc.render.filepath] }

/-- Cleanup step of generate_preview_for_shape (previews.py lines 160-165):
drop the object; drop its data too when it is a mesh with no users left. -/
def cleanupPreviewObj (i : Nat) (s : BState) : BState :=
  match getObj s i with
  | none => s
  | some o =>
    let s1 := removeObject i s
    match o.data with
    | .mesh m => if meshUsers m s1 = 0 then removeMesh m s1 else s1
    | _ => s1

/-- Camera setup of generate_preview_for_shape (previews.py lines 112-126):
an orthographic camera data-block with ortho_scale = size * 1.5, its object
linked into the preview scene, placed at
center + (cam_distance, -cam_distance, cam_distance * 0.8) with
cam_distance = size * 3, and rotated by the tracking quaternion pointing its
-Z axis along direction = center - location. Returns the new state, the
camera data id and the camera object id. -/
def previewCamSetup (pid : Nat) (ctr : Vec3) (sz : ℚ) (st : BState) :
    BState × Nat × Nat :=
  let rc := newCamData "ORTHO" (sz * 1.5) st
  let rco := newObjectRaw "BoolShapes_PreviewCam" (.camera rc.2) rc.1
  let s4 := updateScene pid (fun sc => { sc with objects := sc.objects ++ [rco.2] }) rco.1
  let cam_distance := sz * 3
  let camLoc := ctr.add ⟨cam_distance, -cam_distance, cam_distance * 0.8⟩
  let s5 := updateObj rco.2 (fun o => { o with location := camLoc }) s4
  let direction := ctr.sub camLoc
  let s6 := updateObj rco.2 (fun o => { o with rotation := .track "-Z" "Y" direction }) s5
  (s6, rc.2, rco.2)

/-- Sun light setup of generate_preview_for_shape (previews.py lines
128-140): a SUN light data-block with the given energy, its object linked
into the preview scene and rotated by the given euler angles. Returns the
new state, the light data id and the light object id. -/
def previewLightSetup (pid : Nat) (nm : String) (energy : ℚ) (rot : Vec3)
    (st : BState) : BState × Nat × Nat :=
  let rk := newLightData "SUN" energy st
  let rko := newObjectRaw nm (.light rk.2) rk.1
  let s7 := updateScene pid (fun sc => { sc with objects := sc.objects ++ [rko.2] }) rko.1
  let s8 := updateObj rko.2 (fun o => { o with rotation := .euler rot }) s7
  (s8, rk.2, rko.2)

/-- Render settings and world setup of generate_preview_for_shape
(previews.py lines 142-154): EEVEE, 128x128, transparent film, PNG to the
preview path; a fresh world named BoolShapes_PreviewWorld when the scene has
none; use_nodes switched off on the scene world. -/
def previewRenderSetup (pid camId : Nat) (path : String) (st : BState) : BState :=
  let s11 := updateScene pid (fun sc =>
    { sc with camera := some camId,
              render := { engine := "BLENDER_EEVEE", resolutionX := 128,
                          resolutionY := 128, filmTransparent := true,
                          filepath := path, fileFormat := "PNG" } }) st
  let hasWorld := ((getScene s11 pid).map (fun sc => sc.world.isSome)).getD false
  let rw2 := if hasWorld then s11 else
    let rnw := newWorld "BoolShapes_PreviewWorld" s11
    updateScene pid (fun sc => { sc with world := some rnw.2 }) rnw.1
  match ((getScene rw2 pid).map (fun sc => sc.world)).getD none with
  | some wid => updateWorld wid (fun w => { w with useNodes := false }) rw2
  | none => rw2

/-- Cleanup of generate_preview_for_shape (previews.py lines 159-181): drop
the objects linked into the preview scene (and orphaned meshes), the camera
and light data-blocks, any world named BoolShapes_PreviewWorld, switch the
window back and delete the preview scene. -/
def previewCleanup (pid cdid kdid fdid origWin : Nat) (objs : List Nat)
    (st : BState) : BState :=
  let s14 := objs.foldl (fun acc i => cleanupPreviewObj i acc) st
  let s15 := removeCamData cdid s14
  let s16 := removeLightData kdid s15
  let s17 := removeLightData fdid s16
  let s18 := if s17.worlds.any (fun w => w.name == "BoolShapes_PreviewWorld")
    then removeWorldByName "BoolShapes_PreviewWorld" s17 else s17
  let s19 := setWindowScene origWin s18
  removeScene pid s19

/-- generate_preview_for_shape (previews.py lines 55-199): renders a 128x128
thumbnail of one library shape in a freshly created temporary scene, then
restores the window scene and removes everything it created.

The preview scene holds exactly the four objects linked during the call
(the imported shape, the camera, the two sun lights), in link order; the
cleanup loop iterates over that list. -/
def generate_preview_for_shape (shape_name : String) (s : BState) : BState × Option String :=
  let preview_path := joinPath get_previews_dir (shape_name ++ ".png")
  match s.libFile with
  | none => (s, none)
  | some _ =>
    let original_scene := s.windowScene
    let rs := newScene "BoolShapes_Preview_Scene" s
    let pid := rs.2
    let s1 := setWindowScene pid rs.1
    let rl := libraryLoadOne shape_name s1
    match rl.2 with
    | none =>
      let s2 := setWindowScene original_scene rl.1
      (removeScene pid s2, none)
    | some oid =>
      let s2 := updateScene pid (fun sc => { sc with objects := sc.objects ++ [oid] }) rl.1
      let s3 := updateObj oid (fun o => { o with location := Vec3.zero }) s2
      let bb := worldBBox s3 oid
      let center := bboxCenter bb.1 bb.2
      let size := maxExtent bb.1 bb.2
      let rcam := previewCamSetup pid center size s3
      let rkey := previewLightSetup pid "BoolShapes_KeyLight" 2.0 ⟨0.8, 0.2, 0.5⟩ rcam.1
      let rfill := previewLightSetup pid "BoolShapes_FillLight" 1.0 ⟨-0.5, -0.8, -0.3⟩ rkey.1
      let s12 := previewRenderSetup pid rcam.2.2 preview_path rfill.1
      let s13 := renderWriteStill pid s12
      (previewCleanup pid rcam.2.1 rkey.2.1 rfill.2.1 original_scene
        [oid, rcam.2.2, rkey.2.2, rfill.2.2] s13, some preview_path)

/-! ## Session well-formedness

Invariants Blender maintains on a session: ids are unique and below the
allocation counter, data-block names are unique, and references point below
the counter. Stated with decidable components so concrete witnesses can be
checked by decide. -/

/-- An optional id reference stays below the allocation counter. -/
def optNatBelow (o : Option Nat) (n : Nat) : Prop :=
  match o with
  | some i => i < n
  | none => True

instance (o : Option Nat) (n : Nat) : Decidable (optNatBelow o n) :=
  match o with
  | some i => inferInstanceAs (Decidable (i < n))
  | none => inferInstanceAs (Decidable True)

/-- A mesh data reference stays below the allocation counter. -/
def dataMeshBelow (d : ObjData) (n : Nat) : Prop :=
  match d with
  | .mesh mid => mid < n
  | _ => True

instance (d : ObjData) (n : Nat) : Decidable (dataMeshBelow d n) :=
  match d with
  | .mesh mid => inferInstanceAs (Decidable (mid < n))
  | .camera _ => inferInstanceAs (Decidable True)
  | .light _ => inferInstanceAs (Decidable True)

structure WF (s : BState) : Prop where
  objIdLt : ∀ o ∈ s.objects, o.id < s.nextId
  objIdNodup : (s.objects.map (·.id)).Nodup
  objNameNodup : (s.objects.map (·.name)).Nodup
  objMeshLt : ∀ o ∈ s.objects, dataMeshBelow o.data s.nextId
  sceneIdLt : ∀ sc ∈ s.scenes, sc.id < s.nextId
  sceneIdNodup : (s.scenes.map (·.id)).Nodup
  sceneObjLt : ∀ sc ∈ s.scenes, ∀ i ∈ sc.objects, i < s.nextId
  sceneCamLt : ∀ sc ∈ s.scenes, optNatBelow sc.camera s.nextId
  colNameNodup : (s.collections.map (·.name)).Nodup
  colObjLt : ∀ c ∈ s.collections, ∀ i ∈ c.objects, i < s.nextId
  meshIdLt : ∀ m ∈ s.meshes, m.id < s.nextId
  camIdLt : ∀ c ∈ s.cams, c.id < s.nextId
  lightIdLt : ∀ l ∈ s.lights, l.id < s.nextId
  libNodup : ((s.libFile.getD []).map (·.name)).Nodup
  windowMem : s.windowScene ∈ s.scenes.map (·.id)

/-! ## Concrete example session states used by witnesses -/

def exMeshA : MeshData := { id := 2, bboxMin := ⟨-1, -1, -1⟩, bboxMax := ⟨1, 1, 1⟩ }

def exMeshB : MeshData := { id := 3, bboxMin := ⟨0, 0, 0⟩, bboxMax := ⟨2, 1, 1⟩ }

def exCube : Obj := { id := 0, name := "Cube", data := .mesh 2 }

def exCutter : Obj := { id := 1, name := "Cutter", data := .mesh 3 }

def exScene : Scene := { id := 4, name := "Scene", objects := [0, 1] }

def exState : BState :=
  { nextId := 5, objects := [exCube, exCutter], meshes := [exMeshA, exMeshB],
    scenes := [exScene], windowScene := 4 }

/-! ## Claim C8: input validation before any mutation -/

/-- The precondition both boolean entry points check: two object references
that exist and are meshes. -/
def validBoolInputs (s : BState) (target cutter : Option Nat) : Prop :=
  ∃ t c tobj cobj, target = some t ∧ cutter = some c ∧
    getObj s t = some tobj ∧ getObj s c = some cobj ∧
    tobj.objType = "MESH" ∧ cobj.objType = "MESH"

/-- What non-destructive mode leaves behind for the cutter: it still exists
and is drawn as bounds, it sits in the boolean_cutters collection (created
with the red color tag when it was absent), and it is linked nowhere else. -/
def CutterParked (s0 res : BState) (c : Nat) : Prop :=
  (∃ c2, getObj res c = some c2 ∧ c2.displayType = "BOUNDS") ∧
  (∃ col, getCollection res "boolean_cutters" = some col ∧ c ∈ col.objects ∧
    (getCollection s0 "boolean_cutters" = none → col.colorTag = "COLOR_01")) ∧
  (∀ col ∈ res.collections, col.name ≠ "boolean_cutters" → c ∉ col.objects) ∧
  (∀ sc ∈ res.scenes, c ∉ sc.objects)

/-! ## Claims C1 and C9: the slice result state -/

/-- The INTERSECT modifier apply_slice_operation puts on the copy. -/
def interMod (c : Nat) (cname slv2 : String) : Modifier :=
  { name := "Bool_INTERSECT_" ++ cname, modType := "BOOLEAN",
    operation := "INTERSECT", object := some c, solver := slv2 }

/-- The DIFFERENCE modifier apply_slice_operation puts on the original. -/
def diffMod (c : Nat) (cname slv2 : String) : Modifier :=
  { name := "Bool_DIFFERENCE_" ++ cname, modType := "BOOLEAN",
    operation := "DIFFERENCE", object := some c, solver := slv2 }

/-- The session after apply_slice_operation has duplicated the target mesh
and object (ids s.nextId and s.nextId + 1), before any linking. -/
def sliceBase (s : BState) (tobj : Obj) (bmin bmax : Vec3) : BState :=
  { s with
    nextId := s.nextId + 1 + 1,
    objects := s.objects ++
      [{ tobj with
           id := s.nextId + 1
           name := tobj.name ++ "_slice"
           data := ObjData.mesh s.nextId }],
    meshes := s.meshes ++ [{ id := s.nextId, bboxMin := bmin, bboxMax := bmax }] }

/-- The full result state of non-destructive apply_slice_operation. -/
def sliceResult (s : BState) (t c : Nat) (tobj cobj : Obj) (slv2 : String)
    (bmin bmax : Vec3) : BState :=
  updateObj c (fun o => { o with displayType := "BOUNDS" })
    (move_to_cutters_collection c
      (updateObj t (fun o => { o with modifiers := o.modifiers ++ [diffMod c cobj.name slv2] })
        (updateObj (s.nextId + 1)
          (fun o => { o with modifiers := o.modifiers ++ [interMod c cobj.name slv2] })
          (updateScene s.windowScene
            (fun sc => { sc with objects := sc.objects ++ [s.nextId + 1] })
            (sliceBase s tobj bmin bmax)))))

/-- The session growth caused by loading one library entry e under name n:
a fresh mesh and a fresh object named n. -/
def loadOneResult (s : BState) (n : String) (e : LibShape) : BState :=
  { s with
    meshes := s.meshes ++
      [{ id := s.nextId, bboxMin := e.bboxMin, bboxMax := e.bboxMax }],
    objects := s.objects ++
      [{ id := s.nextId + 1, name := n, data := ObjData.mesh s.nextId }],
    nextId := s.nextId + 1 + 1 }

/-- A one-shape library session whose previews directory holds the shape's
thumbnail. -/
def exLibState : BState :=
  { nextId := 5, scenes := [exScene], windowScene := 4,
    libFile := some [{ name := "Cube" }],
    previewFiles := [joinPath get_previews_dir "Cube.png"] }

/-- A two-shape library session. -/
def exLib2State : BState :=
  { nextId := 5, scenes := [exScene], windowScene := 4,
    libFile := some [{ name := "Cube" }, { name := "Pipe" }],
    previewFiles := [joinPath get_previews_dir "Pipe.png"] }

/-! ## Claims C3, C6, C7: preview generation -/

/-- The session right after the temporary preview scene is created and made
the window scene. -/
def previewStage1 (s : BState) (nm : String) : BState :=
  { s with
    scenes := s.scenes ++ [{ id := s.nextId, name := nm }],
    nextId := s.nextId + 1,
    windowScene := s.nextId }

/-! ## Claim C6 machinery: scene list and window scene restoration

The temporary preview scene gets the id s.nextId; every later step either
touches only that scene, or touches original scenes in ways that are the
identity on them because all their references lie below the id watermark. -/

/-- Dropping the temporary scene pid from the working state recovers the
original scene list. -/
def scenesRestore (l0 : List Scene) (pid : Nat) (st : BState) : Prop :=
  st.scenes.filter (fun sc => sc.id != pid) = l0

/-- Scene references (member objects, the active camera) stay below the id
watermark n. -/
def sceneRefsBelow (l : List Scene) (n : Nat) : Prop :=
  ∀ sc ∈ l, (∀ j ∈ sc.objects, j < n) ∧ optNatBelow sc.camera n

def previewEvent (nm : String) (e : LibShape) : RenderEvent :=
  { sceneName := "BoolShapes_Preview_Scene"
    engine := "BLENDER_EEVEE"
    resolutionX := 128
    resolutionY := 128
    filmTransparent := true
    fileFormat := "PNG"
    filepath := joinPath get_previews_dir (nm ++ ".png")
    cam := some
      { location := (bboxCenter e.bboxMin e.bboxMax).add
          ⟨maxExtent e.bboxMin e.bboxMax * 3, -(maxExtent e.bboxMin e.bboxMax * 3),
            maxExtent e.bboxMin e.bboxMax * 3 * 0.8⟩
        camType := "ORTHO"
        orthoScale := maxExtent e.bboxMin e.bboxMax * 1.5
        rotation := Rotation.track "-Z" "Y" ((bboxCenter e.bboxMin e.bboxMax).sub
          ((bboxCenter e.bboxMin e.bboxMax).add
            ⟨maxExtent e.bboxMin e.bboxMax * 3, -(maxExtent e.bboxMin e.bboxMax * 3),
              maxExtent e.bboxMin e.bboxMax * 3 * 0.8⟩)) } }

/-! ## Theorems -/

theorem freshName_not_taken {base : String} {taken : List String}
    (h : ¬ taken.contains base) : freshName base taken = base := by
  unfold freshName
  rw [if_neg h]

theorem optNatBelow_some {o : Option Nat} {n i : Nat}
    (h : optNatBelow o n) (ho : o = some i) : i < n := by
  rw [ho] at h
  exact h

theorem dataMeshBelow_mesh {d : ObjData} {n mid : Nat}
    (h : dataMeshBelow d n) (hd : d = ObjData.mesh mid) : mid < n := by
  rw [hd] at h
  exact h

/-! ## Lookup lemmas -/

theorem find?_obj_none {l : List Obj} {i : Nat} (h : ∀ o ∈ l, o.id ≠ i) :
    l.find? (fun o => o.id == i) = none := by
  apply List.find?_eq_none.mpr
  intro o ho
  simpa using h o ho

theorem find?_obj_append {l₁ l₂ : List Obj} {i : Nat} (h : ∀ o ∈ l₁, o.id ≠ i) :
    (l₁ ++ l₂).find? (fun o => o.id == i) = l₂.find? (fun o => o.id == i) := by
  rw [List.find?_append, find?_obj_none h, Option.none_or]

theorem find?_scene_none {l : List Scene} {i : Nat} (h : ∀ sc ∈ l, sc.id ≠ i) :
    l.find? (fun sc => sc.id == i) = none := by
  apply List.find?_eq_none.mpr
  intro sc hsc
  simpa using h sc hsc

theorem find?_scene_append {l₁ l₂ : List Scene} {i : Nat} (h : ∀ sc ∈ l₁, sc.id ≠ i) :
    (l₁ ++ l₂).find? (fun sc => sc.id == i) = l₂.find? (fun sc => sc.id == i) := by
  rw [List.find?_append, find?_scene_none h, Option.none_or]

theorem find?_mesh_none {l : List MeshData} {i : Nat} (h : ∀ m ∈ l, m.id ≠ i) :
    l.find? (fun m => m.id == i) = none := by
  apply List.find?_eq_none.mpr
  intro m hm
  simpa using h m hm

theorem find?_mesh_append {l₁ l₂ : List MeshData} {i : Nat} (h : ∀ m ∈ l₁, m.id ≠ i) :
    (l₁ ++ l₂).find? (fun m => m.id == i) = l₂.find? (fun m => m.id == i) := by
  rw [List.find?_append, find?_mesh_none h, Option.none_or]

theorem find?_cam_none {l : List CamData} {i : Nat} (h : ∀ c ∈ l, c.id ≠ i) :
    l.find? (fun c => c.id == i) = none := by
  apply List.find?_eq_none.mpr
  intro c hc
  simpa using h c hc

theorem find?_cam_append {l₁ l₂ : List CamData} {i : Nat} (h : ∀ c ∈ l₁, c.id ≠ i) :
    (l₁ ++ l₂).find? (fun c => c.id == i) = l₂.find? (fun c => c.id == i) := by
  rw [List.find?_append, find?_cam_none h, Option.none_or]

/-- find? by id through an id preserving pointwise update of a list. -/
theorem find?_obj_map_update {l : List Obj} {i j : Nat} {f : Obj → Obj}
    (hf : ∀ o, (f o).id = o.id) :
    (l.map (fun o => if o.id = i then f o else o)).find? (fun o => o.id == j)
      = (l.find? (fun o => o.id == j)).map (fun o => if o.id = i then f o else o) := by
  induction l with
  | nil => rfl
  | cons a t ih =>
    have hid : (if a.id = i then f a else a).id = a.id := by
      by_cases h2 : a.id = i <;> simp [h2, hf]
    simp only [List.map_cons, List.find?_cons, hid]
    by_cases h : a.id = j
    · have hb : (a.id == j) = true := by simpa using h
      rw [hb]
      simp
    · have hb : (a.id == j) = false := by simpa using h
      rw [hb]
      exact ih

/-- Updating by id, seen through a lookup, for id preserving updates. -/
theorem getObj_updateObj {s : BState} {i j : Nat} {f : Obj → Obj}
    (hf : ∀ o, (f o).id = o.id) :
    getObj (updateObj i f s) j =
      (getObj s j).map (fun o => if o.id = i then f o else o) := by
  unfold getObj updateObj
  exact find?_obj_map_update hf

/-- A found object carries the looked-up id. -/
theorem getObj_id {s : BState} {i : Nat} {o : Obj} (h : getObj s i = some o) :
    o.id = i := by
  have := List.find?_some h
  simpa using this

theorem getObj_mem {s : BState} {i : Nat} {o : Obj} (h : getObj s i = some o) :
    o ∈ s.objects := List.mem_of_find?_eq_some h

theorem getObj_updateObj_other {s : BState} {i j : Nat} {f : Obj → Obj}
    (hf : ∀ o, (f o).id = o.id) (hne : j ≠ i) :
    getObj (updateObj i f s) j = getObj s j := by
  rw [getObj_updateObj hf]
  cases hj : getObj s j with
  | none => rfl
  | some o =>
    have ho : o.id = j := getObj_id hj
    simp [Option.map, ho, hne]

theorem getObj_updateObj_self {s : BState} {i : Nat} {f : Obj → Obj} {o : Obj}
    (hf : ∀ o, (f o).id = o.id) (h : getObj s i = some o) :
    getObj (updateObj i f s) i = some (f o) := by
  rw [getObj_updateObj hf, h]
  have ho : o.id = i := getObj_id h
  simp [Option.map, ho]

/-- Looking up a removed object fails. -/
theorem getObj_removeObject_self {s : BState} {i : Nat} :
    getObj (removeObject i s) i = none := by
  unfold getObj removeObject
  apply List.find?_eq_none.mpr
  intro o ho
  have := List.of_mem_filter ho
  simpa using this

theorem find?_scene_map_update {l : List Scene} {i j : Nat} {f : Scene → Scene}
    (hf : ∀ sc, (f sc).id = sc.id) :
    (l.map (fun sc => if sc.id = i then f sc else sc)).find? (fun sc => sc.id == j)
      = (l.find? (fun sc => sc.id == j)).map (fun sc => if sc.id = i then f sc else sc) := by
  induction l with
  | nil => rfl
  | cons a t ih =>
    have hid : (if a.id = i then f a else a).id = a.id := by
      by_cases h2 : a.id = i <;> simp [h2, hf]
    simp only [List.map_cons, List.find?_cons, hid]
    by_cases h : a.id = j
    · have hb : (a.id == j) = true := by simpa using h
      rw [hb]
      simp
    · have hb : (a.id == j) = false := by simpa using h
      rw [hb]
      exact ih

theorem getScene_updateScene {s : BState} {i j : Nat} {f : Scene → Scene}
    (hf : ∀ sc, (f sc).id = sc.id) :
    getScene (updateScene i f s) j =
      (getScene s j).map (fun sc => if sc.id = i then f sc else sc) := by
  unfold getScene updateScene
  exact find?_scene_map_update hf

theorem getScene_id {s : BState} {i : Nat} {sc : Scene} (h : getScene s i = some sc) :
    sc.id = i := by
  have := List.find?_some h
  simpa using this

theorem getScene_mem {s : BState} {i : Nat} {sc : Scene} (h : getScene s i = some sc) :
    sc ∈ s.scenes := List.mem_of_find?_eq_some h

theorem getScene_updateScene_self {s : BState} {i : Nat} {f : Scene → Scene} {sc : Scene}
    (hf : ∀ sc, (f sc).id = sc.id) (h : getScene s i = some sc) :
    getScene (updateScene i f s) i = some (f sc) := by
  rw [getScene_updateScene hf, h]
  have hsc : sc.id = i := getScene_id h
  simp [Option.map, hsc]

theorem getScene_updateScene_other {s : BState} {i j : Nat} {f : Scene → Scene}
    (hf : ∀ sc, (f sc).id = sc.id) (hne : j ≠ i) :
    getScene (updateScene i f s) j = getScene s j := by
  rw [getScene_updateScene hf]
  cases hj : getScene s j with
  | none => rfl
  | some sc =>
    have hsc : sc.id = j := getScene_id hj
    simp [Option.map, hsc, hne]

/-! ## Frame facts: which fields each primitive leaves alone -/

theorem objects_updateScene {s : BState} {i : Nat} {f : Scene → Scene} :
    (updateScene i f s).objects = s.objects := rfl

theorem objects_updateCollection {s : BState} {n : String} {f : Collection → Collection} :
    (updateCollection n f s).objects = s.objects := rfl

theorem objects_get_or_create_cutters {s : BState} :
    (get_or_create_cutters_collection s).objects = s.objects := by
  by_cases h : (s.collections.any fun c => c.name == "boolean_cutters") = true
  · simp [get_or_create_cutters_collection, h]
  · simp [get_or_create_cutters_collection, h, updateScene]

theorem objects_move_to_cutters {s : BState} {i : Nat} :
    (move_to_cutters_collection i s).objects = s.objects := by
  unfold move_to_cutters_collection
  rw [objects_updateCollection]
  show (get_or_create_cutters_collection s).objects = s.objects
  exact objects_get_or_create_cutters

theorem getObj_move_to_cutters {s : BState} {i j : Nat} :
    getObj (move_to_cutters_collection i s) j = getObj s j := by
  unfold getObj
  rw [objects_move_to_cutters]

/-! ## Claim C5: library operations check file existence first -/

/-- C5: when assets.blend does not exist, get_library_objects returns the
empty list, import_shape_from_library returns None, and
remove_shape_from_library returns (False, "Library file does not exist"),
all without touching any state. -/
theorem libraryOps_missing_file_noop (s : BState) (shape : String)
    (h : s.libFile = none) :
    get_library_objects s = [] ∧
    import_shape_from_library shape s = (s, none) ∧
    remove_shape_from_library shape s = (s, false, "Library file does not exist") := by
  refine ⟨?_, ?_, ?_⟩ <;>
    simp [get_library_objects, import_shape_from_library, remove_shape_from_library, h]

/-- Witness for C5 at a concrete session with no library file. -/
theorem libraryOps_missing_file_noop_witness :
    get_library_objects exState = [] ∧
    import_shape_from_library "Cube" exState = (exState, none) ∧
    remove_shape_from_library "Cube" exState = (exState, false, "Library file does not exist") :=
  libraryOps_missing_file_noop exState "Cube" rfl

/-! ## Claim C2: solver sets and BOOLEAN modifiers -/

/-- C2 counterexample: on Blender 4.2.0 (a version below 5.0.0) the solver
identifiers offered are EXACT and FAST, not the claimed
MANIFOLD/EXACT/FLOAT set. -/
theorem solvers_pre50_counterexample :
    (get_available_solvers (4, 2, 0)).map (fun it => it.1) ≠ ["MANIFOLD", "EXACT", "FLOAT"] ∧
    (get_available_solvers (4, 2, 0)).map (fun it => it.1) = ["EXACT", "FAST"] := by
  constructor <;> decide

/-- C2 (amended): boolean mesh math goes through a modifier of type
BOOLEAN created on the target with the requested solver; the solver
identifiers offered by get_available_solvers are MANIFOLD/EXACT/FLOAT on
Blender 5.0+ and EXACT/FAST on earlier versions. -/
theorem solvers_by_version_and_boolean_modifier
    (v : Nat × Nat × Nat) (s : BState) (t c : Nat) (tobj cobj : Obj)
    (op : String) (slv : Option String) (err : Option String)
    (ht : getObj s t = some tobj) (hc : getObj s c = some cobj)
    (hmt : tobj.objType = "MESH") (hmc : cobj.objType = "MESH") (hne : t ≠ c) :
    ((get_available_solvers v).map (fun it => it.1) =
      if versionGE v (5, 0, 0) then ["MANIFOLD", "EXACT", "FLOAT"] else ["EXACT", "FAST"]) ∧
    (∃ t2, getObj (apply_boolean_operation (some t) (some c) op false slv err s).1 t = some t2 ∧
      t2.modifiers = tobj.modifiers ++
        [{ name := "Bool_" ++ op ++ "_" ++ cobj.name, modType := "BOOLEAN",
           operation := op, object := some c, solver := slv.getD s.solverType }]) := by
  constructor
  · unfold get_available_solvers
    by_cases hv : versionGE v (5, 0, 0) = true
    · rw [if_pos hv, if_pos hv]
      rfl
    · rw [if_neg hv, if_neg hv]
      rfl
  · simp only [apply_boolean_operation, ht, hc, hmt, hmc]
    norm_num
    rw [getObj_updateObj_other ?hf1 hne, getObj_move_to_cutters,
      getObj_updateObj_self ?hf2 ht]
    case hf1 => intro o; rfl
    case hf2 => intro o; rfl
    exact ⟨_, rfl, rfl⟩

/-- Witness for the amended C2 at Blender 5.0.0 and a concrete session. -/
theorem solvers_by_version_and_boolean_modifier_witness :
    ((get_available_solvers (5, 0, 0)).map (fun it => it.1) =
      if versionGE (5, 0, 0) (5, 0, 0) then ["MANIFOLD", "EXACT", "FLOAT"]
      else ["EXACT", "FAST"]) ∧
    (∃ t2, getObj (apply_boolean_operation (some 0) (some 1) "DIFFERENCE"
        false none none exState).1 0 = some t2 ∧
      t2.modifiers = exCube.modifiers ++
        [{ name := "Bool_" ++ "DIFFERENCE" ++ "_" ++ exCutter.name, modType := "BOOLEAN",
           operation := "DIFFERENCE", object := some 1,
           solver := Option.getD none exState.solverType }]) :=
  solvers_by_version_and_boolean_modifier (5, 0, 0) exState 0 1 exCube exCutter
    "DIFFERENCE" none none rfl rfl rfl rfl (by decide)

/-- C8: with an invalid target or cutter (absent reference or non-mesh),
apply_boolean_operation and apply_slice_operation return failure and leave
the session untouched. -/
theorem invalid_inputs_rejected (s : BState) (target cutter : Option Nat)
    (op : String) (dest : Bool) (slv : Option String) (err : Option String)
    (ok1 ok2 : Bool) (h : ¬ validBoolInputs s target cutter) :
    ((apply_boolean_operation target cutter op dest slv err s).1 = s ∧
     (apply_boolean_operation target cutter op dest slv err s).2.1 = false) ∧
    ((apply_slice_operation target cutter dest slv ok1 ok2 s).1 = s ∧
     (apply_slice_operation target cutter dest slv ok1 ok2 s).2.1 = false) := by
  cases target with
  | none => simp [apply_boolean_operation, apply_slice_operation]
  | some t =>
    cases cutter with
    | none => simp [apply_boolean_operation, apply_slice_operation]
    | some c =>
      cases hgt : getObj s t with
      | none => simp [apply_boolean_operation, apply_slice_operation, hgt]
      | some tobj =>
        cases hgc : getObj s c with
        | none => simp [apply_boolean_operation, apply_slice_operation, hgt, hgc]
        | some cobj =>
          by_cases h1 : tobj.objType = "MESH"
          · by_cases h2 : cobj.objType = "MESH"
            · exact absurd ⟨t, c, tobj, cobj, rfl, rfl, hgt, hgc, h1, h2⟩ h
            · have hb : (cobj.objType != "MESH") = true := by
                simp [bne_iff_ne, h2]
              simp [apply_boolean_operation, apply_slice_operation, hgt, hgc, hb]
          · have hb : (tobj.objType != "MESH") = true := by
              simp [bne_iff_ne, h1]
            simp [apply_boolean_operation, apply_slice_operation, hgt, hgc, hb]

/-- Witness for C8 with a missing cutter argument. -/
theorem invalid_inputs_rejected_witness :
    ((apply_boolean_operation (some 0) none "DIFFERENCE" false none none exState).1 = exState ∧
     (apply_boolean_operation (some 0) none "DIFFERENCE" false none none exState).2.1 = false) ∧
    ((apply_slice_operation (some 0) none false none true true exState).1 = exState ∧
     (apply_slice_operation (some 0) none false none true true exState).2.1 = false) :=
  invalid_inputs_rejected exState (some 0) none "DIFFERENCE" false none none true true
    (by rintro ⟨t, c, tobj, cobj, _, hc, _⟩; exact Option.noConfusion hc)

/-! ## Claim C9: non-destructive mode parks the cutter, destructive deletes it -/

theorem find?_col_none {l : List Collection} {n : String}
    (h : ∀ col ∈ l, col.name ≠ n) :
    l.find? (fun col => col.name == n) = none := by
  apply List.find?_eq_none.mpr
  intro col hcol
  simpa using h col hcol

theorem find?_col_map {l : List Collection} {n : String} {u : Collection → Collection}
    (hu : ∀ col, (u col).name = col.name) :
    (l.map u).find? (fun col => col.name == n)
      = (l.find? (fun col => col.name == n)).map u := by
  induction l with
  | nil => rfl
  | cons a t ih =>
    simp only [List.map_cons, List.find?_cons, hu]
    by_cases h : a.name = n
    · have hb : (a.name == n) = true := by simpa using h
      rw [hb]
      rfl
    · have hb : (a.name == n) = false := by simpa using h
      rw [hb]
      exact ih

theorem find?_scene_map {l : List Scene} {j : Nat} {u : Scene → Scene}
    (hu : ∀ sc, (u sc).id = sc.id) :
    (l.map u).find? (fun sc => sc.id == j)
      = (l.find? (fun sc => sc.id == j)).map u := by
  induction l with
  | nil => rfl
  | cons a t ih =>
    simp only [List.map_cons, List.find?_cons, hu]
    by_cases h : a.id = j
    · have hb : (a.id == j) = true := by simpa using h
      rw [hb]
      rfl
    · have hb : (a.id == j) = false := by simpa using h
      rw [hb]
      exact ih

theorem collections_updateObj {s : BState} {i : Nat} {f : Obj → Obj} :
    (updateObj i f s).collections = s.collections := rfl

theorem scenes_updateObj {s : BState} {i : Nat} {f : Obj → Obj} :
    (updateObj i f s).scenes = s.scenes := rfl

/-- The effect of move_to_cutters_collection on collections, when a
boolean_cutters collection already exists. -/
theorem collections_move_present {s : BState} {c : Nat}
    (hex : (s.collections.any fun col => col.name == "boolean_cutters") = true) :
    (move_to_cutters_collection c s).collections
      = (s.collections.map
          (fun col => { col with objects := col.objects.filter (fun j => j != c) })).map
          (fun col => if col.name = "boolean_cutters"
            then { col with objects := col.objects ++ [c] } else col) := by
  simp [move_to_cutters_collection, get_or_create_cutters_collection, hex, updateCollection]

/-- The effect of move_to_cutters_collection on collections, when the
boolean_cutters collection has to be created. -/
theorem collections_move_absent {s : BState} {c : Nat}
    (hex : (s.collections.any fun col => col.name == "boolean_cutters") = false) :
    (move_to_cutters_collection c s).collections
      = ((s.collections ++ [({ name := "boolean_cutters", colorTag := "COLOR_01" } : Collection)]).map
          (fun col => { col with objects := col.objects.filter (fun j => j != c) })).map
          (fun col => if col.name = "boolean_cutters"
            then { col with objects := col.objects ++ [c] } else col) := by
  simp [move_to_cutters_collection, get_or_create_cutters_collection, hex,
    updateCollection, updateScene]

/-- Every scene coming out of move_to_cutters_collection has the moved
object filtered out of its master collection. -/
theorem move_scenes_filtered {s : BState} {c : Nat} :
    ∀ sc ∈ (move_to_cutters_collection c s).scenes, c ∉ sc.objects := by
  have key : ∃ X : List Scene, (move_to_cutters_collection c s).scenes
      = X.map (fun sc => { sc with objects := sc.objects.filter (fun j => j != c) }) := by
    by_cases hex : (s.collections.any fun col => col.name == "boolean_cutters") = true
    · exact ⟨s.scenes, by
        simp [move_to_cutters_collection, get_or_create_cutters_collection, hex,
          updateCollection]⟩
    · refine ⟨(updateScene s.windowScene
        (fun sc => { sc with children := sc.children ++ ["boolean_cutters"] }) s).scenes, ?_⟩
      simp only [Bool.not_eq_true] at hex
      simp [move_to_cutters_collection, get_or_create_cutters_collection, hex,
        updateCollection, updateScene]
  obtain ⟨X, hX⟩ := key
  intro sc hmem
  rw [hX] at hmem
  obtain ⟨sc0, _, rfl⟩ := List.mem_map.mp hmem
  intro hc
  have := List.of_mem_filter hc
  simp at this

/-- Moving the cutter to the cutters collection then setting bounds display
establishes CutterParked relative to any earlier state s0 with the same
collections, for any session state holding the cutter. -/
theorem move_then_bounds_parks (s0 s : BState) (c : Nat) (cobj : Obj)
    (hc : getObj s c = some cobj) (hcols : s.collections = s0.collections) :
    CutterParked s0 (updateObj c (fun o => { o with displayType := "BOUNDS" })
      (move_to_cutters_collection c s)) c := by
  have hcx : getObj (move_to_cutters_collection c s) c = some cobj := by
    rw [getObj_move_to_cutters]
    exact hc
  have hu : ∀ col : Collection,
      ((if col.name = "boolean_cutters"
        then { col with objects := col.objects ++ [c] } else col) : Collection).name
        = col.name := by
    intro col
    by_cases h : col.name = "boolean_cutters" <;> simp [h]
  have hg : ∀ col : Collection,
      (({ col with objects := col.objects.filter (fun j => j != c) }) : Collection).name
        = col.name := fun col => rfl
  refine ⟨⟨_, getObj_updateObj_self (fun o => rfl) hcx, rfl⟩, ?_, ?_, ?_⟩
  · -- the boolean_cutters collection holds the cutter
    rw [show getCollection (updateObj c (fun o => { o with displayType := "BOUNDS" })
        (move_to_cutters_collection c s)) "boolean_cutters"
      = getCollection (move_to_cutters_collection c s) "boolean_cutters" from rfl]
    by_cases hex : (s.collections.any fun col => col.name == "boolean_cutters") = true
    · -- an entry already exists: the first one receives the cutter
      obtain ⟨col0, hcol0, hname0⟩ := List.any_eq_true.mp hex
      have hsome : (s.collections.find? (fun col => col.name == "boolean_cutters")).isSome := by
        rw [List.find?_isSome]
        exact ⟨col0, hcol0, hname0⟩
      obtain ⟨colF, hcolF⟩ := Option.isSome_iff_exists.mp hsome
      have hnameF : colF.name = "boolean_cutters" := by
        have := List.find?_some hcolF
        simpa using this
      unfold getCollection
      rw [collections_move_present hex, find?_col_map hu, find?_col_map hg, hcolF]
      refine ⟨_, rfl, ?_, ?_⟩
      · simp [hnameF]
      · intro habs
        rw [← hcols, hcolF] at habs
        exact Option.noConfusion habs
    · -- no entry yet: a fresh red one is created holding just the cutter
      have hex2 : (s.collections.any fun col => col.name == "boolean_cutters") = false :=
        eq_false_of_ne_true hex
      have hnone : ∀ col ∈ s.collections, col.name ≠ "boolean_cutters" := by
        intro col hcol
        have := List.any_eq_false.mp hex2 col hcol
        simpa using this
      unfold getCollection
      rw [collections_move_absent hex2]
      rw [List.map_append, List.map_append, List.find?_append]
      have hmapped : ((s.collections.map
            (fun col => { col with objects := col.objects.filter (fun j => j != c) })).map
            (fun col => if col.name = "boolean_cutters"
              then { col with objects := col.objects ++ [c] } else col)).find?
          (fun col => col.name == "boolean_cutters") = none := by
        rw [find?_col_map hu, find?_col_map hg, find?_col_none hnone]
        rfl
      rw [hmapped, Option.none_or]
      exact ⟨⟨"boolean_cutters", "COLOR_01", [c]⟩, by simp [List.find?], by simp,
        fun _ => rfl⟩
  · -- no other collection holds the cutter
    intro col hmem hname
    have hmem2 : col ∈ (move_to_cutters_collection c s).collections := hmem
    have key : ∃ X : List Collection, (move_to_cutters_collection c s).collections
        = (X.map (fun col => { col with objects := col.objects.filter (fun j => j != c) })).map
          (fun col => if col.name = "boolean_cutters"
            then { col with objects := col.objects ++ [c] } else col) := by
      by_cases hex : (s.collections.any fun col => col.name == "boolean_cutters") = true
      · exact ⟨s.collections, collections_move_present hex⟩
      · exact ⟨s.collections ++ [{ name := "boolean_cutters", colorTag := "COLOR_01" }],
          collections_move_absent (eq_false_of_ne_true hex)⟩
    obtain ⟨X, hX⟩ := key
    rw [hX] at hmem2
    obtain ⟨col1, hcol1, rfl⟩ := List.mem_map.mp hmem2
    obtain ⟨col0, _, rfl⟩ := List.mem_map.mp hcol1
    by_cases h : (({ col0 with
        objects := col0.objects.filter (fun j => j != c) }) : Collection).name
        = "boolean_cutters"
    · rw [if_pos h] at hname
      exact absurd h hname
    · rw [if_neg h]
      intro hcmem
      have := List.of_mem_filter hcmem
      simp at this
  · -- no scene master collection holds the cutter
    intro sc hmem
    exact move_scenes_filtered sc hmem

/-- The concrete example session is well formed. -/
theorem exState_wf : WF exState := by
  constructor <;> decide

/-! ## More frame and lookup helpers -/

theorem getObj_updateScene {s : BState} {i j : Nat} {f : Scene → Scene} :
    getObj (updateScene i f s) j = getObj s j := rfl

theorem getScene_updateObj {s : BState} {i j : Nat} {f : Obj → Obj} :
    getScene (updateObj i f s) j = getScene s j := rfl

theorem find?_obj_append_right_none {l₁ l₂ : List Obj} {i : Nat}
    (h : ∀ o ∈ l₂, o.id ≠ i) :
    (l₁ ++ l₂).find? (fun o => o.id == i) = l₁.find? (fun o => o.id == i) := by
  rw [List.find?_append, find?_obj_none h, Option.or_none]

theorem getObj_updateObj_append_mod_other {s : BState} {i j : Nat} {m : Modifier}
    (hne : j ≠ i) :
    getObj (updateObj i (fun o => { o with modifiers := o.modifiers ++ [m] }) s) j
      = getObj s j :=
  getObj_updateObj_other (fun _ => rfl) hne

theorem getObj_updateObj_append_mod_self {s : BState} {i : Nat} {m : Modifier} {o : Obj}
    (h : getObj s i = some o) :
    getObj (updateObj i (fun o => { o with modifiers := o.modifiers ++ [m] }) s) i
      = some { o with modifiers := o.modifiers ++ [m] } :=
  getObj_updateObj_self (fun _ => rfl) h

theorem getObj_updateObj_bounds_other {s : BState} {i j : Nat} (hne : j ≠ i) :
    getObj (updateObj i (fun o => { o with displayType := "BOUNDS" }) s) j = getObj s j :=
  getObj_updateObj_other (fun _ => rfl) hne

theorem scenes_move_present {s : BState} {c : Nat}
    (hex : (s.collections.any fun col => col.name == "boolean_cutters") = true) :
    (move_to_cutters_collection c s).scenes
      = s.scenes.map (fun sc => { sc with objects := sc.objects.filter (fun j => j != c) }) := by
  simp [move_to_cutters_collection, get_or_create_cutters_collection, hex, updateCollection]

theorem scenes_move_absent {s : BState} {c : Nat}
    (hex : (s.collections.any fun col => col.name == "boolean_cutters") = false) :
    (move_to_cutters_collection c s).scenes
      = (s.scenes.map (fun sc => if sc.id = s.windowScene
          then { sc with children := sc.children ++ ["boolean_cutters"] } else sc)).map
          (fun sc => { sc with objects := sc.objects.filter (fun j => j != c) }) := by
  simp [move_to_cutters_collection, get_or_create_cutters_collection, hex,
    updateCollection, updateScene]

theorem find?_scene_filterobjs {l : List Scene} {c j : Nat} :
    (l.map (fun sc => { sc with objects := sc.objects.filter (fun k => k != c) })).find?
      (fun sc => sc.id == j)
    = (l.find? (fun sc => sc.id == j)).map
        (fun sc => { sc with objects := sc.objects.filter (fun k => k != c) }) :=
  find?_scene_map (fun _ => rfl)

theorem find?_scene_children {l : List Scene} {w j : Nat} {nm : String} :
    (l.map (fun sc => if sc.id = w
        then { sc with children := sc.children ++ [nm] } else sc)).find?
      (fun sc => sc.id == j)
    = (l.find? (fun sc => sc.id == j)).map (fun sc => if sc.id = w
        then { sc with children := sc.children ++ [nm] } else sc) :=
  find?_scene_map (fun sc => by by_cases h : sc.id = w <;> simp [h])

/-- Reading a scene back through move_to_cutters_collection: it survives
with the moved object filtered out of its master collection, its other
fields (camera, render settings, cursor) unchanged. -/
theorem getScene_move_to_cutters {s : BState} {c w : Nat} {sc1 : Scene}
    (h : getScene s w = some sc1) :
    ∃ sc2, getScene (move_to_cutters_collection c s) w = some sc2 ∧
      sc2.objects = sc1.objects.filter (fun j => j != c) ∧
      sc2.id = sc1.id ∧ sc2.camera = sc1.camera ∧ sc2.render = sc1.render ∧
      sc2.name = sc1.name := by
  by_cases hex : (s.collections.any fun col => col.name == "boolean_cutters") = true
  · refine ⟨{ sc1 with objects := sc1.objects.filter (fun j => j != c) },
      ?_, rfl, rfl, rfl, rfl, rfl⟩
    unfold getScene
    rw [scenes_move_present hex, find?_scene_filterobjs]
    unfold getScene at h
    rw [h]
    rfl
  · have hex2 : (s.collections.any fun col => col.name == "boolean_cutters") = false :=
      eq_false_of_ne_true hex
    by_cases h2 : sc1.id = s.windowScene
    · refine ⟨{ sc1 with
                children := sc1.children ++ ["boolean_cutters"],
                objects := sc1.objects.filter (fun j => j != c) },
        ?_, rfl, rfl, rfl, rfl, rfl⟩
      unfold getScene
      rw [scenes_move_absent hex2, find?_scene_filterobjs, find?_scene_children]
      unfold getScene at h
      rw [h]
      simp [Option.map, h2]
    · refine ⟨{ sc1 with objects := sc1.objects.filter (fun j => j != c) },
        ?_, rfl, rfl, rfl, rfl, rfl⟩
      unfold getScene
      rw [scenes_move_absent hex2, find?_scene_filterobjs, find?_scene_children]
      unfold getScene at h
      rw [h]
      simp [Option.map, h2]

/-- Non-destructive apply_slice_operation computes sliceResult, for some
mesh bounds, and reports success. -/
theorem slice_nondestructive_eq
    (s : BState) (t c : Nat) (tobj cobj : Obj) (slv : Option String) (ok1 ok2 : Bool)
    (ht : getObj s t = some tobj) (hc : getObj s c = some cobj)
    (hmt : tobj.objType = "MESH") (hmc : cobj.objType = "MESH")
    (hname : ((allObjNames s).contains (tobj.name ++ "_slice")) = false) :
    ∃ bmin bmax, apply_slice_operation (some t) (some c) false slv ok1 ok2 s
      = (sliceResult s t c tobj cobj (slv.getD s.solverType) bmin bmax,
         true, "Applied slice operation (non-destructive)") := by
  have hname' : ((s.objects.map (fun x => x.name)).contains (tobj.name ++ "_slice"))
      = false := hname
  have hfresh : freshName (tobj.name ++ "_slice") (s.objects.map (fun x => x.name))
      = tobj.name ++ "_slice" :=
    freshName_not_taken (by intro hcon; rw [hname'] at hcon; exact Bool.noConfusion hcon)
  refine ⟨?_, ?_, ?_⟩
  case _ => exact (match tobj.data with
    | ObjData.mesh m =>
      match getMesh s m with
      | some md => (md.bboxMin, md.bboxMax)
      | none => (Vec3.zero, Vec3.zero)
    | _ => (Vec3.zero, Vec3.zero)).1
  case _ => exact (match tobj.data with
    | ObjData.mesh m =>
      match getMesh s m with
      | some md => (md.bboxMin, md.bboxMax)
      | none => (Vec3.zero, Vec3.zero)
    | _ => (Vec3.zero, Vec3.zero)).2
  simp only [apply_slice_operation, ht, hc, hmt, hmc]
  norm_num [hfresh, allObjNames, newMesh, sliceResult, sliceBase, interMod, diffMod]

/-- The slice copy: a fresh object under id s.nextId + 1 named after the
target, holding a fresh mesh and the target's modifier stack plus the
INTERSECT modifier. -/
theorem sliceResult_copy (s : BState) (t c : Nat) (tobj cobj : Obj) (slv2 : String)
    (bmin bmax : Vec3) (hwf : WF s)
    (ht : getObj s t = some tobj) (hc : getObj s c = some cobj) :
    getObj (sliceResult s t c tobj cobj slv2 bmin bmax) (s.nextId + 1)
      = some { tobj with
               id := s.nextId + 1
               name := tobj.name ++ "_slice"
               data := ObjData.mesh s.nextId
               modifiers := tobj.modifiers ++ [interMod c cobj.name slv2] } := by
  have hclt : c < s.nextId := by
    have h2 := hwf.objIdLt cobj (getObj_mem hc)
    rwa [getObj_id hc] at h2
  have htlt : t < s.nextId := by
    have h2 := hwf.objIdLt tobj (getObj_mem ht)
    rwa [getObj_id ht] at h2
  have hbase : getObj (updateScene s.windowScene
      (fun sc => { sc with objects := sc.objects ++ [s.nextId + 1] })
      (sliceBase s tobj bmin bmax)) (s.nextId + 1)
      = some { tobj with
               id := s.nextId + 1
               name := tobj.name ++ "_slice"
               data := ObjData.mesh s.nextId } := by
    rw [getObj_updateScene]
    unfold getObj sliceBase
    rw [find?_obj_append ?hl]
    case hl =>
      intro o ho
      have := hwf.objIdLt o ho
      omega
    simp [List.find?]
  unfold sliceResult
  rw [getObj_updateObj_bounds_other (by omega), getObj_move_to_cutters,
    getObj_updateObj_append_mod_other (by omega),
    getObj_updateObj_append_mod_self hbase]

/-- The slice original: same object, same data, with the DIFFERENCE
modifier appended. -/
theorem sliceResult_target (s : BState) (t c : Nat) (tobj cobj : Obj) (slv2 : String)
    (bmin bmax : Vec3) (hwf : WF s)
    (ht : getObj s t = some tobj) (_hc : getObj s c = some cobj) (hne : t ≠ c) :
    getObj (sliceResult s t c tobj cobj slv2 bmin bmax) t
      = some { tobj with modifiers := tobj.modifiers ++ [diffMod c cobj.name slv2] } := by
  have htlt : t < s.nextId := by
    have h2 := hwf.objIdLt tobj (getObj_mem ht)
    rwa [getObj_id ht] at h2
  have hbase : getObj (updateScene s.windowScene
      (fun sc => { sc with objects := sc.objects ++ [s.nextId + 1] })
      (sliceBase s tobj bmin bmax)) t = some tobj := by
    rw [getObj_updateScene]
    unfold getObj sliceBase
    rw [find?_obj_append_right_none ?hr]
    case hr =>
      intro o ho
      simp at ho
      subst ho
      show s.nextId + 1 ≠ t
      omega
    exact ht
  have hmid : getObj (updateObj (s.nextId + 1)
      (fun o => { o with modifiers := o.modifiers ++ [interMod c cobj.name slv2] })
      (updateScene s.windowScene
        (fun sc => { sc with objects := sc.objects ++ [s.nextId + 1] })
        (sliceBase s tobj bmin bmax))) t = some tobj := by
    rw [getObj_updateObj_append_mod_other (by omega)]
    exact hbase
  unfold sliceResult
  rw [getObj_updateObj_bounds_other hne, getObj_move_to_cutters,
    getObj_updateObj_append_mod_self hmid]

/-- The slice copy is linked into the window scene's master collection. -/
theorem sliceResult_linked (s : BState) (t c : Nat) (tobj cobj : Obj) (slv2 : String)
    (bmin bmax : Vec3) (hwf : WF s) (hc : getObj s c = some cobj) :
    ∃ sc2, getScene (sliceResult s t c tobj cobj slv2 bmin bmax) s.windowScene
      = some sc2 ∧ (s.nextId + 1) ∈ sc2.objects := by
  have hclt : c < s.nextId := by
    have h2 := hwf.objIdLt cobj (getObj_mem hc)
    rwa [getObj_id hc] at h2
  obtain ⟨sc0, hsc0⟩ : ∃ sc0, getScene s s.windowScene = some sc0 := by
    obtain ⟨sc0, hmem, hid⟩ := List.mem_map.mp hwf.windowMem
    have hio : (s.scenes.find? (fun sc => sc.id == s.windowScene)).isSome := by
      rw [List.find?_isSome]
      exact ⟨sc0, hmem, by simp [hid]⟩
    exact Option.isSome_iff_exists.mp hio
  have hbs : getScene (sliceBase s tobj bmin bmax) s.windowScene = some sc0 := hsc0
  have hX : getScene (updateObj t
      (fun o => { o with modifiers := o.modifiers ++ [diffMod c cobj.name slv2] })
      (updateObj (s.nextId + 1)
        (fun o => { o with modifiers := o.modifiers ++ [interMod c cobj.name slv2] })
        (updateScene s.windowScene
          (fun sc => { sc with objects := sc.objects ++ [s.nextId + 1] })
          (sliceBase s tobj bmin bmax)))) s.windowScene
      = some { sc0 with objects := sc0.objects ++ [s.nextId + 1] } := by
    rw [getScene_updateObj, getScene_updateObj]
    exact getScene_updateScene_self (fun _ => rfl) hbs
  obtain ⟨sc2, hsc2, hobjs, _, _, _, _⟩ := getScene_move_to_cutters hX
  refine ⟨sc2, ?_, ?_⟩
  · unfold sliceResult
    rw [show ∀ (x : BState), getScene (updateObj c
      (fun o => { o with displayType := "BOUNDS" }) x) s.windowScene
      = getScene x s.windowScene from fun x => rfl]
    exact hsc2
  · rw [hobjs]
    rw [List.mem_filter]
    constructor
    · simp
    · simp
      omega

/-- Non-destructive slice leaves the cutter parked. -/
theorem sliceResult_parked (s : BState) (t c : Nat) (tobj cobj : Obj) (slv2 : String)
    (bmin bmax : Vec3) (hwf : WF s)
    (hc : getObj s c = some cobj) (hne : t ≠ c) :
    CutterParked s (sliceResult s t c tobj cobj slv2 bmin bmax) c := by
  have hclt : c < s.nextId := by
    have h2 := hwf.objIdLt cobj (getObj_mem hc)
    rwa [getObj_id hc] at h2
  have hcX : getObj (updateObj t
      (fun o => { o with modifiers := o.modifiers ++ [diffMod c cobj.name slv2] })
      (updateObj (s.nextId + 1)
        (fun o => { o with modifiers := o.modifiers ++ [interMod c cobj.name slv2] })
        (updateScene s.windowScene
          (fun sc => { sc with objects := sc.objects ++ [s.nextId + 1] })
          (sliceBase s tobj bmin bmax)))) c = some cobj := by
    rw [getObj_updateObj_append_mod_other (Ne.symm hne),
      getObj_updateObj_append_mod_other (by omega), getObj_updateScene]
    unfold getObj sliceBase
    rw [find?_obj_append_right_none ?hr]
    case hr =>
      intro o ho
      simp at ho
      subst ho
      show s.nextId + 1 ≠ c
      omega
    exact hc
  exact move_then_bounds_parks s _ c cobj hcX rfl

/-- C1: for a mesh target and mesh cutter (non-destructive mode, no name
collision on the copy), apply_slice_operation creates a copy of the target
named target.name ++ "_slice" sharing no mesh data with it, links the copy
into the scene collection, attaches an INTERSECT BOOLEAN modifier to the
copy and a DIFFERENCE BOOLEAN modifier to the original, both referencing
the cutter, and returns success. -/
theorem slice_copies_and_modifies
    (s : BState) (t c : Nat) (tobj cobj : Obj) (slv : Option String) (ok1 ok2 : Bool)
    (hwf : WF s)
    (ht : getObj s t = some tobj) (hc : getObj s c = some cobj)
    (hmt : tobj.objType = "MESH") (hmc : cobj.objType = "MESH") (hne : t ≠ c)
    (hname : ((allObjNames s).contains (tobj.name ++ "_slice")) = false) :
    ∃ res,
      apply_slice_operation (some t) (some c) false slv ok1 ok2 s
        = (res, true, "Applied slice operation (non-destructive)") ∧
      (∃ copy, getObj res (s.nextId + 1) = some copy ∧
        copy.name = tobj.name ++ "_slice" ∧
        copy.data = ObjData.mesh s.nextId ∧
        copy.data ≠ tobj.data ∧
        copy.modifiers = tobj.modifiers ++ [interMod c cobj.name (slv.getD s.solverType)]) ∧
      (∃ t2, getObj res t = some t2 ∧ t2.data = tobj.data ∧
        t2.modifiers = tobj.modifiers ++ [diffMod c cobj.name (slv.getD s.solverType)]) ∧
      (∃ sc2, getScene res s.windowScene = some sc2 ∧ (s.nextId + 1) ∈ sc2.objects) := by
  obtain ⟨bmin, bmax, heq⟩ :=
    slice_nondestructive_eq s t c tobj cobj slv ok1 ok2 ht hc hmt hmc hname
  refine ⟨_, heq, ?_, ?_, ?_⟩
  · refine ⟨_, sliceResult_copy s t c tobj cobj _ bmin bmax hwf ht hc, rfl, rfl, ?_, rfl⟩
    intro hdata
    have hmlt := dataMeshBelow_mesh (hwf.objMeshLt tobj (getObj_mem ht)) hdata.symm
    omega
  · exact ⟨_, sliceResult_target s t c tobj cobj _ bmin bmax hwf ht hc hne, rfl, rfl⟩
  · exact sliceResult_linked s t c tobj cobj _ bmin bmax hwf hc

/-- Witness for C1 at a concrete two-object session. -/
theorem slice_copies_and_modifies_witness :
    ∃ res,
      apply_slice_operation (some 0) (some 1) false none true true exState
        = (res, true, "Applied slice operation (non-destructive)") ∧
      (∃ copy, getObj res (exState.nextId + 1) = some copy ∧
        copy.name = exCube.name ++ "_slice" ∧
        copy.data = ObjData.mesh exState.nextId ∧
        copy.data ≠ exCube.data ∧
        copy.modifiers = exCube.modifiers ++
          [interMod 1 exCutter.name (Option.getD none exState.solverType)]) ∧
      (∃ t2, getObj res 0 = some t2 ∧ t2.data = exCube.data ∧
        t2.modifiers = exCube.modifiers ++
          [diffMod 1 exCutter.name (Option.getD none exState.solverType)]) ∧
      (∃ sc2, getScene res exState.windowScene = some sc2 ∧
        (exState.nextId + 1) ∈ sc2.objects) :=
  slice_copies_and_modifies exState 0 1 exCube exCutter none true true exState_wf
    rfl rfl rfl rfl (by decide) (by decide)

/-- C9: in non-destructive mode both boolean entry points keep the cutter
(parked in boolean_cutters, drawn as bounds, unlinked elsewhere); only in
destructive mode is the cutter removed from the session. -/
theorem nondestructive_parks_destructive_deletes
    (s : BState) (t c : Nat) (tobj cobj : Obj) (op : String) (slv : Option String)
    (hwf : WF s)
    (ht : getObj s t = some tobj) (hc : getObj s c = some cobj)
    (hmt : tobj.objType = "MESH") (hmc : cobj.objType = "MESH") (hne : t ≠ c)
    (hname : ((allObjNames s).contains (tobj.name ++ "_slice")) = false) :
    CutterParked s (apply_boolean_operation (some t) (some c) op false slv none s).1 c ∧
    CutterParked s (apply_slice_operation (some t) (some c) false slv true true s).1 c ∧
    getObj (apply_boolean_operation (some t) (some c) op true slv none s).1 c = none ∧
    getObj (apply_slice_operation (some t) (some c) true slv true true s).1 c = none := by
  refine ⟨?_, ?_, ?_, ?_⟩
  · simp only [apply_boolean_operation, ht, hc, hmt, hmc]
    norm_num
    refine move_then_bounds_parks s _ c cobj ?_ rfl
    rw [getObj_updateObj_append_mod_other (Ne.symm hne)]
    exact hc
  · obtain ⟨bmin, bmax, heq⟩ :=
      slice_nondestructive_eq s t c tobj cobj slv true true ht hc hmt hmc hname
    rw [heq]
    exact sliceResult_parked s t c tobj cobj _ bmin bmax hwf hc hne
  · simp only [apply_boolean_operation, ht, hc, hmt, hmc]
    norm_num
    exact getObj_removeObject_self
  · simp only [apply_slice_operation, ht, hc, hmt, hmc]
    norm_num
    exact getObj_removeObject_self

/-- Witness for C9 at a concrete two-object session. -/
theorem nondestructive_parks_destructive_deletes_witness :
    CutterParked exState
      (apply_boolean_operation (some 0) (some 1) "DIFFERENCE" false none none exState).1 1 ∧
    CutterParked exState
      (apply_slice_operation (some 0) (some 1) false none true true exState).1 1 ∧
    getObj (apply_boolean_operation (some 0) (some 1) "DIFFERENCE" true none none exState).1 1
      = none ∧
    getObj (apply_slice_operation (some 0) (some 1) true none true true exState).1 1 = none :=
  nondestructive_parks_destructive_deletes exState 0 1 exCube exCutter "DIFFERENCE" none
    exState_wf rfl rfl rfl rfl (by decide) (by decide)

/-! ## Claim C10: removing a shape from the library -/

theorem libFile_libraryLoadOne {s : BState} {n : String} :
    (libraryLoadOne n s).1.libFile = s.libFile := by
  unfold libraryLoadOne
  cases h : s.libFile with
  | none => exact h
  | some entries =>
    cases hf : entries.find? (fun e => e.name == n) with
    | none =>
      simp only [hf]
      exact h
    | some e =>
      simp only [hf]
      exact h

/-- What one libraries.load of a list of names does: every requested name
present in the file yields one fresh object carrying exactly that name (no
collision under the disjointness hypothesis), in request order; data-blocks
already in the session are untouched. -/
theorem libraryLoadMany_names (names : List String) (s : BState) (entries : List LibShape)
    (hlib : s.libFile = some entries)
    (hfound : ∀ n ∈ names, ∃ e ∈ entries, e.name = n)
    (hdisj : ∀ n ∈ names, ((allObjNames s).contains n) = false)
    (hnodup : names.Nodup)
    (hids : ∀ o ∈ s.objects, o.id < s.nextId) :
    (libraryLoadMany names s).2.map
        (fun i => (getObj (libraryLoadMany names s).1 i).map (fun o => o.name))
      = names.map some ∧
    (libraryLoadMany names s).1.libFile = s.libFile ∧
    (libraryLoadMany names s).1.previewFiles = s.previewFiles ∧
    s.nextId ≤ (libraryLoadMany names s).1.nextId ∧
    (∀ j, j < s.nextId → getObj (libraryLoadMany names s).1 j = getObj s j) ∧
    (∀ o ∈ (libraryLoadMany names s).1.objects,
      o.id < (libraryLoadMany names s).1.nextId) := by
  induction names generalizing s with
  | nil =>
    exact ⟨rfl, rfl, rfl, le_refl _, fun j _ => rfl, hids⟩
  | cons n rest ih =>
    obtain ⟨e0, he0mem, he0name⟩ := hfound n (List.mem_cons_self n rest)
    have hsome : (entries.find? (fun e => e.name == n)).isSome := by
      rw [List.find?_isSome]
      exact ⟨e0, he0mem, by simp [he0name]⟩
    obtain ⟨eF, heF⟩ := Option.isSome_iff_exists.mp hsome
    have hnotin : ((allObjNames s).contains n) = false :=
      hdisj n (List.mem_cons_self n rest)
    have hfresh : freshName n (List.map (fun x => x.name) s.objects) = n :=
      freshName_not_taken (by
        intro hcon
        have hnotin' : ((s.objects.map (fun x => x.name)).contains n) = false := hnotin
        rw [hnotin'] at hcon
        exact Bool.noConfusion hcon)
    have hone : libraryLoadOne n s = (loadOneResult s n eF, some (s.nextId + 1)) := by
      unfold libraryLoadOne
      rw [hlib]
      simp [heF, newMesh, newObjectRaw, allObjNames, hfresh, loadOneResult]
    have hlib2 : (loadOneResult s n eF).libFile = some entries := hlib
    have hfound2 : ∀ m ∈ rest, ∃ e ∈ entries, e.name = m :=
      fun m hm => hfound m (List.mem_cons_of_mem n hm)
    have hnodup' := List.nodup_cons.mp hnodup
    have hdisj2 : ∀ m ∈ rest, ((allObjNames (loadOneResult s n eF)).contains m) = false := by
      intro m hm
      have h1 : ((allObjNames s).contains m) = false := hdisj m (List.mem_cons_of_mem n hm)
      have h2 : n ≠ m := fun hEq => hnodup'.1 (hEq ▸ hm)
      have hall : allObjNames (loadOneResult s n eF) = allObjNames s ++ [n] := by
        simp [allObjNames, loadOneResult]
      rw [hall]
      simp only [List.contains_eq_any_beq, List.any_append] at h1 ⊢
      rw [h1]
      simp
      exact fun hEq => h2 hEq.symm
    have hids2 : ∀ o ∈ (loadOneResult s n eF).objects,
        o.id < (loadOneResult s n eF).nextId := by
      intro o ho
      rcases List.mem_append.mp ho with hold | hnew
      · have := hids o hold
        show o.id < s.nextId + 1 + 1
        omega
      · rw [List.mem_singleton.mp hnew]
        show s.nextId + 1 < s.nextId + 1 + 1
        omega
    obtain ⟨ih1, ih2, ih3, ih4, ih5, ih6⟩ :=
      ih (loadOneResult s n eF) hlib2 hfound2 hdisj2 hnodup'.2 hids2
    have hgetnew : getObj (libraryLoadMany rest (loadOneResult s n eF)).1 (s.nextId + 1)
        = some { id := s.nextId + 1, name := n, data := ObjData.mesh s.nextId } := by
      rw [ih5 (s.nextId + 1) (by show s.nextId + 1 < s.nextId + 1 + 1; omega)]
      unfold getObj loadOneResult
      rw [find?_obj_append ?hl]
      case hl =>
        intro o ho
        have := hids o ho
        omega
      simp [List.find?]
    simp only [libraryLoadMany, hone]
    refine ⟨?_, ?_, ?_, ?_, ?_, ?_⟩
    · simp only [List.map_cons, List.map_nil, List.singleton_append, List.nil_append]
      rw [hgetnew, ih1]
      rfl
    · exact ih2.trans rfl
    · exact ih3.trans rfl
    · refine le_trans ?_ ih4
      show s.nextId ≤ s.nextId + 1 + 1
      omega
    · intro j hj
      rw [ih5 j (by show j < s.nextId + 1 + 1; omega)]
      unfold getObj loadOneResult
      rw [find?_obj_append_right_none ?hr]
      case hr =>
        intro o ho
        rw [List.mem_singleton.mp ho]
        show s.nextId + 1 ≠ j
        omega
    · exact ih6

/-- libraries.write stores exactly the given objects, under their current
session names, in order. -/
theorem libraryWrite_names {sX : BState} (ids : List Nat) (names : List String)
    (h : ids.map (fun i => (getObj sX i).map (fun o => o.name)) = names.map some) :
    ∃ l, (libraryWrite ids sX).libFile = some l ∧
      l.map (fun e => e.name) = names := by
  refine ⟨_, rfl, ?_⟩
  induction ids generalizing names with
  | nil =>
    cases names with
    | nil => rfl
    | cons a b => simp at h
  | cons i rest ih =>
    cases names with
    | nil => simp at h
    | cons nm nmrest =>
      simp only [List.map_cons] at h
      injection h with h1 h2
      obtain ⟨o, ho, hname⟩ := Option.map_eq_some'.mp h1
      simp only [List.filterMap_cons, ho, Option.map_some']
      simp only [List.map_cons]
      rw [ih nmrest h2]
      have hF : (match o.data with
          | ObjData.mesh m =>
            match getMesh sX m with
            | some md => { name := o.name, bboxMin := md.bboxMin,
                           bboxMax := md.bboxMax : LibShape }
            | none => { name := o.name : LibShape }
          | _ => { name := o.name : LibShape }).name = o.name := by
        cases o.data with
        | mesh m => cases hgm : getMesh sX m <;> simp [hgm]
        | camera cid => rfl
        | light lid => rfl
      rw [hF, hname]

/-- The post-write cleanup loop touches only session data-blocks, never the
library file or the previews directory. -/
theorem cleanup_fold_frame (ids : List Nat) (s : BState) :
    ((ids.foldl (fun st i => cleanupSavedObj i st) s).libFile = s.libFile) ∧
    ((ids.foldl (fun st i => cleanupSavedObj i st) s).previewFiles = s.previewFiles) := by
  induction ids generalizing s with
  | nil => exact ⟨rfl, rfl⟩
  | cons i rest ih =>
    simp only [List.foldl_cons]
    have h1 : (cleanupSavedObj i s).libFile = s.libFile ∧
        (cleanupSavedObj i s).previewFiles = s.previewFiles := by
      unfold cleanupSavedObj
      cases hg : getObj s i with
      | none => exact ⟨rfl, rfl⟩
      | some o =>
        simp only [hg]
        cases o.data with
        | mesh m =>
          by_cases hu : meshUsers m (removeObject i s) = 0
          · simp only [hu]
            exact ⟨rfl, rfl⟩
          · simp only [hu]
            exact ⟨rfl, rfl⟩
        | camera cid => exact ⟨rfl, rfl⟩
        | light lid => exact ⟨rfl, rfl⟩
    obtain ⟨ha, hb⟩ := ih (cleanupSavedObj i s)
    exact ⟨ha.trans h1.1, hb.trans h1.2⟩

/-- C10 counterexample: removing the only shape in the library succeeds and
empties the library, but the shape's preview PNG is NOT deleted (the early
empty-library return skips the preview cleanup), contradicting the claim
that the preview is deleted whenever present. -/
theorem remove_last_shape_keeps_preview :
    (remove_shape_from_library "Cube" exLibState).2.1 = true ∧
    (remove_shape_from_library "Cube" exLibState).1.libFile = some [] ∧
    (joinPath get_previews_dir ("Cube" ++ ".png"))
      ∈ (remove_shape_from_library "Cube" exLibState).1.previewFiles := by
  refine ⟨?_, ?_, ?_⟩ <;> decide

/-- C10 (amended): remove_shape_from_library removes exactly the named
shape from the library file (provided no session object carries one of the
kept names, which would make Blender rename the reloaded copies), returns
success, and deletes the shape's preview PNG if present EXCEPT when the
removed shape was the only one: the early empty-library return skips the
preview cleanup. A name not in the library is rejected with the file
untouched. -/
theorem remove_shape_spec (s : BState) (entries : List LibShape) (shape : String)
    (hwf : WF s) (hlib : s.libFile = some entries)
    (hdisj : ∀ nm ∈ entries.map (fun e => e.name), nm ≠ shape →
      ((allObjNames s).contains nm) = false) :
    (shape ∉ entries.map (fun e => e.name) →
      remove_shape_from_library shape s
        = (s, false, "Object '" ++ shape ++ "' not found in library")) ∧
    (shape ∈ entries.map (fun e => e.name) →
      (remove_shape_from_library shape s).2.1 = true ∧
      (∃ l, (remove_shape_from_library shape s).1.libFile = some l ∧
        l.map (fun e => e.name)
          = (entries.map (fun e => e.name)).filter (fun nm => nm != shape)) ∧
      (remove_shape_from_library shape s).1.previewFiles
        = (if ((entries.map (fun e => e.name)).filter (fun nm => nm != shape)).isEmpty
           then s.previewFiles
           else s.previewFiles.filter
             (fun p => p != joinPath get_previews_dir (shape ++ ".png")))) := by
  constructor
  · intro hnm
    have hcontf : ((entries.map (fun e => e.name)).contains shape) = false := by
      cases hb : (entries.map (fun e => e.name)).contains shape with
      | false => rfl
      | true => exact absurd (List.mem_of_elem_eq_true hb) hnm
    simp only [remove_shape_from_library, hlib, get_library_objects, hcontf]
    norm_num
  · intro hmem
    have hcont : ((entries.map (fun e => e.name)).contains shape) = true :=
      List.elem_eq_true_of_mem hmem
    by_cases hkeep : ((entries.map (fun e => e.name)).filter
        (fun nm => nm != shape)).isEmpty = true
    · refine ⟨?_, ⟨[], ?_, ?_⟩, ?_⟩
      · simp only [remove_shape_from_library, hlib, get_library_objects, hcont, hkeep]
        norm_num
      · simp only [remove_shape_from_library, hlib, get_library_objects, hcont, hkeep]
        norm_num
      · rw [List.map_nil]
        exact (List.isEmpty_iff.mp hkeep).symm
      · simp only [remove_shape_from_library, hlib, get_library_objects, hcont, hkeep]
        norm_num
    · have hkeepf : ((entries.map (fun e => e.name)).filter
          (fun nm => nm != shape)).isEmpty = false := eq_false_of_ne_true hkeep
      have hkeepfound : ∀ nm ∈ (entries.map (fun e => e.name)).filter
          (fun nm => nm != shape), ∃ e ∈ entries, e.name = nm := by
        intro nm hnm
        obtain ⟨e, he, heq⟩ := List.mem_map.mp (List.mem_of_mem_filter hnm)
        exact ⟨e, he, heq⟩
      have hkeepdisj : ∀ nm ∈ (entries.map (fun e => e.name)).filter
          (fun nm => nm != shape), ((allObjNames s).contains nm) = false := by
        intro nm hnm
        have h1 := List.mem_of_mem_filter hnm
        have h2 := List.of_mem_filter hnm
        exact hdisj nm h1 (by simpa using h2)
      have hkeepnodup : ((entries.map (fun e => e.name)).filter
          (fun nm => nm != shape)).Nodup := by
        have hlibnodup := hwf.libNodup
        rw [hlib] at hlibnodup
        exact List.Nodup.filter _ hlibnodup
      obtain ⟨lf1, lf2, lf3, lf4, lf5, lf6⟩ :=
        libraryLoadMany_names ((entries.map (fun e => e.name)).filter
          (fun nm => nm != shape)) s entries hlib hkeepfound hkeepdisj hkeepnodup
          hwf.objIdLt
      have lf1' : (libraryLoadMany ((entries.map (fun e => e.name)).filter
            (fun nm => nm != shape)) s).2.map
          (fun i => (getObj (setLibFile none
            (libraryLoadMany ((entries.map (fun e => e.name)).filter
              (fun nm => nm != shape)) s).1) i).map (fun o => o.name))
          = ((entries.map (fun e => e.name)).filter (fun nm => nm != shape)).map some :=
        lf1
      obtain ⟨l, hl, hlnames⟩ := libraryWrite_names _ _ lf1'
      have hs4p : ((libraryLoadMany ((entries.map (fun e => e.name)).filter
            (fun nm => nm != shape)) s).2.foldl
            (fun st i => cleanupSavedObj i st)
            (libraryWrite (libraryLoadMany ((entries.map (fun e => e.name)).filter
              (fun nm => nm != shape)) s).2
              (setLibFile none (libraryLoadMany ((entries.map (fun e => e.name)).filter
                (fun nm => nm != shape)) s).1))).previewFiles = s.previewFiles := by
        rw [(cleanup_fold_frame _ _).2]
        exact lf3
      have hs4l : ((libraryLoadMany ((entries.map (fun e => e.name)).filter
            (fun nm => nm != shape)) s).2.foldl
            (fun st i => cleanupSavedObj i st)
            (libraryWrite (libraryLoadMany ((entries.map (fun e => e.name)).filter
              (fun nm => nm != shape)) s).2
              (setLibFile none (libraryLoadMany ((entries.map (fun e => e.name)).filter
                (fun nm => nm != shape)) s).1))).libFile = some l := by
        rw [(cleanup_fold_frame _ _).1]
        exact hl
      refine ⟨?_, ⟨l, ?_, hlnames⟩, ?_⟩
      · simp only [remove_shape_from_library, hlib, get_library_objects, hcont, hkeepf]
        norm_num
      · simp only [remove_shape_from_library, hlib, get_library_objects, hcont, hkeepf]
        norm_num
        split
        · rw [show ∀ x : BState, (removePreviewFile
            (joinPath get_previews_dir (shape ++ ".png")) x).libFile = x.libFile
            from fun x => rfl]
          exact hs4l
        · exact hs4l
      · simp only [remove_shape_from_library, hlib, get_library_objects, hcont, hkeepf]
        norm_num
        split
        · rw [show ∀ x : BState, (removePreviewFile
            (joinPath get_previews_dir (shape ++ ".png")) x).previewFiles
            = x.previewFiles.filter
              (fun q => q != joinPath get_previews_dir (shape ++ ".png"))
            from fun x => rfl]
          rw [hs4p]
        · rename_i hnotmem
          rw [hs4p] at hnotmem ⊢
          rw [List.filter_eq_self.mpr]
          intro p hp
          simp only [bne_iff_ne, ne_eq, decide_eq_true_eq]
          intro hEq
          exact hnotmem (hEq ▸ hp)

theorem exLib2State_wf : WF exLib2State := by
  constructor <;> decide

/-- Witness for C10 (amended): removing one of two shapes. -/
theorem remove_shape_spec_witness :
    ("Pipe" ∉ ([{ name := "Cube" }, { name := "Pipe" }] : List LibShape).map
        (fun e => e.name) →
      remove_shape_from_library "Pipe" exLib2State
        = (exLib2State, false, "Object '" ++ "Pipe" ++ "' not found in library")) ∧
    ("Pipe" ∈ ([{ name := "Cube" }, { name := "Pipe" }] : List LibShape).map
        (fun e => e.name) →
      (remove_shape_from_library "Pipe" exLib2State).2.1 = true ∧
      (∃ l, (remove_shape_from_library "Pipe" exLib2State).1.libFile = some l ∧
        l.map (fun e => e.name)
          = (([{ name := "Cube" }, { name := "Pipe" }] : List LibShape).map
              (fun e => e.name)).filter (fun nm => nm != "Pipe")) ∧
      (remove_shape_from_library "Pipe" exLib2State).1.previewFiles
        = (if ((([{ name := "Cube" }, { name := "Pipe" }] : List LibShape).map
               (fun e => e.name)).filter (fun nm => nm != "Pipe")).isEmpty
           then exLib2State.previewFiles
           else exLib2State.previewFiles.filter
             (fun p => p != joinPath get_previews_dir ("Pipe" ++ ".png")))) :=
  remove_shape_spec exLib2State [{ name := "Cube" }, { name := "Pipe" }] "Pipe"
    exLib2State_wf rfl (by decide)

/-! ## Claim C4: add_shape_to_library and the temporary source rename -/

/-- C4 evaluation: on the success path the source object's name is restored
("Cube"), but when the library write raises after the library copy (also
named "Cube") was created, the finally-block rename collides with that
still-alive copy, so Blender renames the source to "Cube.001": the name is
NOT restored on the exception path. -/
theorem add_shape_write_failure_renames_source :
    ((add_shape_to_library 0 true exState).2
        = PyOutcome.ret true "Added 'Cube' to library" ∧
      (getObj (add_shape_to_library 0 true exState).1 0).map (fun o => o.name)
        = some "Cube") ∧
    ((add_shape_to_library 0 false exState).2 = PyOutcome.exc ∧
      (getObj (add_shape_to_library 0 false exState).1 0).map (fun o => o.name)
        = some "Cube.001") := by
  refine ⟨⟨?_, ?_⟩, ?_, ?_⟩ <;> decide

theorem newScene_snd {s : BState} {nm : String} : (newScene nm s).2 = s.nextId := rfl

theorem stage1_eq {s : BState} {nm : String} :
    setWindowScene (newScene nm s).2 (newScene nm s).1
      = previewStage1 s (freshName nm (allSceneNames s)) := by
  simp [newScene, setWindowScene, previewStage1]

theorem previewStage1_nextId {s : BState} {nm : String} :
    (previewStage1 s nm).nextId = s.nextId + 1 := rfl

theorem previewStage1_libFile {s : BState} {nm : String} :
    (previewStage1 s nm).libFile = s.libFile := rfl

theorem previewStage1_windowScene {s : BState} {nm : String} :
    (previewStage1 s nm).windowScene = s.nextId := rfl

theorem loadOneResult_nextId {s : BState} {n : String} {e : LibShape} :
    (loadOneResult s n e).nextId = s.nextId + 1 + 1 := rfl

/-- libraries.load of one present name, as an equation. -/
theorem libraryLoadOne_eq (s : BState) (n : String) (entries : List LibShape) (eF : LibShape)
    (hlib : s.libFile = some entries)
    (heF : entries.find? (fun e => e.name == n) = some eF)
    (hfresh : freshName n (List.map (fun x => x.name) s.objects) = n) :
    libraryLoadOne n s = (loadOneResult s n eF, some (s.nextId + 1)) := by
  unfold libraryLoadOne
  rw [hlib]
  simp [heF, newMesh, newObjectRaw, allObjNames, hfresh, loadOneResult]

/-- Looking up the object just loaded from the library. -/
theorem getObj_loadOneResult_new {s : BState} {n : String} {e : LibShape}
    (hids : ∀ o ∈ s.objects, o.id < s.nextId) :
    getObj (loadOneResult s n e) (s.nextId + 1)
      = some { id := s.nextId + 1, name := n, data := ObjData.mesh s.nextId } := by
  unfold getObj loadOneResult
  rw [find?_obj_append ?hl]
  case hl =>
    intro o ho
    have := hids o ho
    omega
  simp [List.find?]

/-- Looking up the mesh just loaded from the library. -/
theorem getMesh_loadOneResult_new {s : BState} {n : String} {e : LibShape}
    (hmids : ∀ m ∈ s.meshes, m.id < s.nextId) :
    getMesh (loadOneResult s n e) s.nextId
      = some { id := s.nextId, bboxMin := e.bboxMin, bboxMax := e.bboxMax } := by
  unfold getMesh loadOneResult
  rw [find?_mesh_append ?hl]
  case hl =>
    intro m hm
    have := hmids m hm
    omega
  simp [List.find?]

theorem Vec3.zero_add (v : Vec3) : Vec3.zero.add v = v := by
  simp [Vec3.add, Vec3.zero]

/-! Frame facts for the preview pipeline: which lookups each primitive
leaves untouched, and how ids advance. -/

theorem getScene_loadOneResult {s : BState} {n : String} {e : LibShape} {j : Nat} :
    getScene (loadOneResult s n e) j = getScene s j := rfl

theorem getScene_newCamData1 {s : BState} {a : String} {b : ℚ} {j : Nat} :
    getScene (newCamData a b s).1 j = getScene s j := rfl

theorem getScene_newObjectRaw1 {s : BState} {nm : String} {d : ObjData} {j : Nat} :
    getScene (newObjectRaw nm d s).1 j = getScene s j := rfl

theorem getScene_newLightData1 {s : BState} {a : String} {b : ℚ} {j : Nat} :
    getScene (newLightData a b s).1 j = getScene s j := rfl

theorem getScene_newWorld1 {s : BState} {nm : String} {j : Nat} :
    getScene (newWorld nm s).1 j = getScene s j := rfl

theorem getScene_updateWorld {s : BState} {i j : Nat} {f : WorldData → WorldData} :
    getScene (updateWorld i f s) j = getScene s j := rfl

theorem getScene_setWindowScene {s : BState} {i j : Nat} :
    getScene (setWindowScene i s) j = getScene s j := rfl

theorem getObj_newCamData1 {s : BState} {a : String} {b : ℚ} {j : Nat} :
    getObj (newCamData a b s).1 j = getObj s j := rfl

theorem getObj_newLightData1 {s : BState} {a : String} {b : ℚ} {j : Nat} :
    getObj (newLightData a b s).1 j = getObj s j := rfl

theorem getObj_newWorld1 {s : BState} {nm : String} {j : Nat} :
    getObj (newWorld nm s).1 j = getObj s j := rfl

theorem getObj_updateWorld {s : BState} {i j : Nat} {f : WorldData → WorldData} :
    getObj (updateWorld i f s) j = getObj s j := rfl

theorem getObj_setWindowScene {s : BState} {i j : Nat} :
    getObj (setWindowScene i s) j = getObj s j := rfl

theorem getMesh_updateObj {s : BState} {i j : Nat} {f : Obj → Obj} :
    getMesh (updateObj i f s) j = getMesh s j := rfl

theorem getMesh_updateScene {s : BState} {i j : Nat} {f : Scene → Scene} :
    getMesh (updateScene i f s) j = getMesh s j := rfl

theorem nextId_updateObj {s : BState} {i : Nat} {f : Obj → Obj} :
    (updateObj i f s).nextId = s.nextId := rfl

theorem nextId_updateScene {s : BState} {i : Nat} {f : Scene → Scene} :
    (updateScene i f s).nextId = s.nextId := rfl

theorem nextId_newCamData1 {s : BState} {a : String} {b : ℚ} :
    (newCamData a b s).1.nextId = s.nextId + 1 := rfl

theorem nextId_newObjectRaw1 {s : BState} {nm : String} {d : ObjData} :
    (newObjectRaw nm d s).1.nextId = s.nextId + 1 := rfl

theorem nextId_newLightData1 {s : BState} {a : String} {b : ℚ} :
    (newLightData a b s).1.nextId = s.nextId + 1 := rfl

theorem nextId_newWorld1 {s : BState} {nm : String} :
    (newWorld nm s).1.nextId = s.nextId + 1 := rfl

theorem nextId_updateWorld {s : BState} {i : Nat} {f : WorldData → WorldData} :
    (updateWorld i f s).nextId = s.nextId := rfl

theorem snd_newCamData {s : BState} {a : String} {b : ℚ} :
    (newCamData a b s).2 = s.nextId := rfl

theorem snd_newObjectRaw {s : BState} {nm : String} {d : ObjData} :
    (newObjectRaw nm d s).2 = s.nextId := rfl

theorem snd_newLightData {s : BState} {a : String} {b : ℚ} :
    (newLightData a b s).2 = s.nextId := rfl

theorem snd_newWorld {s : BState} {nm : String} :
    (newWorld nm s).2 = s.nextId := rfl

theorem cams_updateObj {s : BState} {i : Nat} {f : Obj → Obj} :
    (updateObj i f s).cams = s.cams := rfl

theorem cams_updateScene {s : BState} {i : Nat} {f : Scene → Scene} :
    (updateScene i f s).cams = s.cams := rfl

theorem cams_newObjectRaw1 {s : BState} {nm : String} {d : ObjData} :
    (newObjectRaw nm d s).1.cams = s.cams := rfl

theorem cams_newLightData1 {s : BState} {a : String} {b : ℚ} :
    (newLightData a b s).1.cams = s.cams := rfl

theorem cams_newWorld1 {s : BState} {nm : String} :
    (newWorld nm s).1.cams = s.cams := rfl

theorem cams_updateWorld {s : BState} {i : Nat} {f : WorldData → WorldData} :
    (updateWorld i f s).cams = s.cams := rfl

theorem cams_newCamData1 {s : BState} {a : String} {b : ℚ} :
    (newCamData a b s).1.cams
      = s.cams ++ [{ id := s.nextId, camType := a, orthoScale := b }] := rfl

theorem cams_loadOneResult {s : BState} {n : String} {e : LibShape} :
    (loadOneResult s n e).cams = s.cams := rfl

theorem cams_previewStage1 {s : BState} {nm : String} :
    (previewStage1 s nm).cams = s.cams := rfl

/-- Map form lemmas for the scene updates used by the preview pipeline. -/
theorem getScene_updateScene_link {s : BState} {i j k : Nat} :
    getScene (updateScene i (fun sc => { sc with objects := sc.objects ++ [k] }) s) j
      = (getScene s j).map (fun sc => if sc.id = i
          then { sc with objects := sc.objects ++ [k] } else sc) :=
  getScene_updateScene (fun _ => rfl)

theorem getScene_updateScene_settings {s : BState} {i j k : Nat} {r : RenderSettings} :
    getScene (updateScene i (fun sc => { sc with camera := some k, render := r }) s) j
      = (getScene s j).map (fun sc => if sc.id = i
          then { sc with camera := some k, render := r } else sc) :=
  getScene_updateScene (fun _ => rfl)

theorem getScene_updateScene_world {s : BState} {i j w : Nat} :
    getScene (updateScene i (fun sc => { sc with world := some w }) s) j
      = (getScene s j).map (fun sc => if sc.id = i
          then { sc with world := some w } else sc) :=
  getScene_updateScene (fun _ => rfl)

/-- Map form lemmas for the object updates used by the preview pipeline. -/
theorem getObj_updateObj_loc {s : BState} {i j : Nat} {v : Vec3} :
    getObj (updateObj i (fun o => { o with location := v }) s) j
      = (getObj s j).map (fun o => if o.id = i then { o with location := v } else o) :=
  getObj_updateObj (fun _ => rfl)

theorem getObj_updateObj_rot {s : BState} {i j : Nat} {r : Rotation} :
    getObj (updateObj i (fun o => { o with rotation := r }) s) j
      = (getObj s j).map (fun o => if o.id = i then { o with rotation := r } else o) :=
  getObj_updateObj (fun _ => rfl)

/-- The window scene as created by previewStage1. -/
theorem getScene_previewStage1_self {s : BState} {nm : String}
    (hsc : ∀ sc ∈ s.scenes, sc.id < s.nextId) :
    getScene (previewStage1 s nm) s.nextId = some { id := s.nextId, name := nm } := by
  unfold getScene previewStage1
  rw [find?_scene_append ?hl]
  case hl =>
    intro sc hscm
    have := hsc sc hscm
    omega
  simp [List.find?]

/-- The object just created by newObjectRaw. -/
theorem getObj_newObjectRaw_new {s : BState} {nm : String} {d : ObjData}
    (hids : ∀ o ∈ s.objects, o.id < s.nextId) :
    getObj (newObjectRaw nm d s).1 s.nextId
      = some { id := s.nextId, name := freshName nm (allObjNames s), data := d } := by
  unfold getObj newObjectRaw
  rw [find?_obj_append ?hl]
  case hl =>
    intro o ho
    have := hids o ho
    omega
  simp [List.find?]

theorem filter_ne_map_update {l : List Scene} {pid : Nat} {f : Scene → Scene}
    (hf : ∀ sc, (f sc).id = sc.id) :
    (l.map (fun sc => if sc.id = pid then f sc else sc)).filter
        (fun sc => sc.id != pid)
      = l.filter (fun sc => sc.id != pid) := by
  induction l with
  | nil => rfl
  | cons a t ih =>
    by_cases h : a.id = pid
    · simp [List.filter_cons, h, hf, ih]
    · simp [List.filter_cons, h, ih]

theorem filter_ne_map_rem {l : List Scene} {pid i : Nat}
    (h : ∀ sc ∈ l, sc.id ≠ pid → (∀ j ∈ sc.objects, j ≠ i) ∧ sc.camera ≠ some i) :
    (l.map (fun sc =>
      { sc with
        objects := sc.objects.filter (fun j => j != i),
        camera := if sc.camera = some i then none else sc.camera })).filter
        (fun sc => sc.id != pid)
      = l.filter (fun sc => sc.id != pid) := by
  induction l with
  | nil => rfl
  | cons a t ih =>
    have ih' := ih (fun sc hm hne => h sc (List.mem_cons_of_mem a hm) hne)
    by_cases hpid : a.id = pid
    · simp [List.filter_cons, hpid, ih']
    · obtain ⟨h1, h2⟩ := h a (List.mem_cons_self a t) hpid
      have hobj : a.objects.filter (fun j => j != i) = a.objects :=
        List.filter_eq_self.mpr (fun j hj => by simpa using h1 j hj)
      have hcam : (if a.camera = some i then none else a.camera) = a.camera :=
        if_neg h2
      simp [List.filter_cons, hpid, hobj, hcam, ih']

theorem scenesRestore_updateScene {l0 : List Scene} {pid : Nat} {f : Scene → Scene}
    {st : BState} (hf : ∀ sc, (f sc).id = sc.id) (h : scenesRestore l0 pid st) :
    scenesRestore l0 pid (updateScene pid f st) := by
  unfold scenesRestore at h ⊢
  rw [show (updateScene pid f st).scenes
        = st.scenes.map (fun sc => if sc.id = pid then f sc else sc) from rfl,
      filter_ne_map_update hf]
  exact h

theorem scenesRestore_removeObject {l0 : List Scene} {pid i n : Nat} {st : BState}
    (hb : sceneRefsBelow l0 n) (hi : n ≤ i) (h : scenesRestore l0 pid st) :
    scenesRestore l0 pid (removeObject i st) := by
  unfold scenesRestore at h ⊢
  rw [show (removeObject i st).scenes
        = st.scenes.map (fun sc =>
            { sc with
              objects := sc.objects.filter (fun j => j != i),
              camera := if sc.camera = some i then none else sc.camera }) from rfl]
  rw [filter_ne_map_rem ?hh]
  · exact h
  case hh =>
    intro sc hm hne
    have hmem : sc ∈ l0 := by
      rw [← h]
      exact List.mem_filter.mpr ⟨hm, by simpa using hne⟩
    obtain ⟨h1, h2⟩ := hb sc hmem
    refine ⟨fun j hj => ?_, fun hcon => ?_⟩
    · have := h1 j hj
      omega
    · rw [hcon] at h2
      have : i < n := h2
      omega

theorem scenesRestore_cleanup {l0 : List Scene} {pid i n : Nat} {st : BState}
    (hb : sceneRefsBelow l0 n) (hi : n ≤ i) (h : scenesRestore l0 pid st) :
    scenesRestore l0 pid (cleanupPreviewObj i st) := by
  unfold cleanupPreviewObj
  cases hg : getObj st i with
  | none => exact h
  | some o =>
    cases hd : o.data with
    | mesh m =>
      simp only [hd]
      split
      · exact scenesRestore_removeObject hb hi h
      · exact scenesRestore_removeObject hb hi h
    | camera c =>
      simp only [hd]
      exact scenesRestore_removeObject hb hi h
    | light lid =>
      simp only [hd]
      exact scenesRestore_removeObject hb hi h

theorem scenesRestore_setWindowScene {l0 : List Scene} {pid i : Nat} {st : BState}
    (h : scenesRestore l0 pid st) : scenesRestore l0 pid (setWindowScene i st) := h

theorem scenesRestore_updateObj {l0 : List Scene} {pid i : Nat} {f : Obj → Obj}
    {st : BState} (h : scenesRestore l0 pid st) :
    scenesRestore l0 pid (updateObj i f st) := h

theorem scenesRestore_newCamData1 {l0 : List Scene} {pid : Nat} {a : String} {b : ℚ}
    {st : BState} (h : scenesRestore l0 pid st) :
    scenesRestore l0 pid (newCamData a b st).1 := h

theorem scenesRestore_newObjectRaw1 {l0 : List Scene} {pid : Nat} {nm : String}
    {d : ObjData} {st : BState} (h : scenesRestore l0 pid st) :
    scenesRestore l0 pid (newObjectRaw nm d st).1 := h

theorem scenesRestore_newLightData1 {l0 : List Scene} {pid : Nat} {a : String} {b : ℚ}
    {st : BState} (h : scenesRestore l0 pid st) :
    scenesRestore l0 pid (newLightData a b st).1 := h

theorem scenesRestore_newWorld1 {l0 : List Scene} {pid : Nat} {nm : String}
    {st : BState} (h : scenesRestore l0 pid st) :
    scenesRestore l0 pid (newWorld nm st).1 := h

theorem scenesRestore_updateWorld {l0 : List Scene} {pid i : Nat}
    {f : WorldData → WorldData} {st : BState} (h : scenesRestore l0 pid st) :
    scenesRestore l0 pid (updateWorld i f st) := h

theorem scenesRestore_removeCamData {l0 : List Scene} {pid i : Nat} {st : BState}
    (h : scenesRestore l0 pid st) : scenesRestore l0 pid (removeCamData i st) := h

theorem scenesRestore_removeLightData {l0 : List Scene} {pid i : Nat} {st : BState}
    (h : scenesRestore l0 pid st) : scenesRestore l0 pid (removeLightData i st) := h

theorem scenesRestore_removeWorldByName {l0 : List Scene} {pid : Nat} {nm : String}
    {st : BState} (h : scenesRestore l0 pid st) :
    scenesRestore l0 pid (removeWorldByName nm st) := h

theorem scenesRestore_renderWriteStill {l0 : List Scene} {pid i : Nat} {st : BState}
    (h : scenesRestore l0 pid st) : scenesRestore l0 pid (renderWriteStill i st) := by
  unfold renderWriteStill
  cases hg : getScene st i with
  | none => exact h
  | some sc => exact h

theorem scenesRestore_libraryLoadOne {l0 : List Scene} {pid : Nat} {n : String}
    {st : BState} (h : scenesRestore l0 pid st) :
    scenesRestore l0 pid (libraryLoadOne n st).1 := by
  unfold libraryLoadOne
  cases hl : st.libFile with
  | none => exact h
  | some entries =>
    cases hf : entries.find? (fun e => e.name == n) with
    | none =>
      simp only [hf]
      exact h
    | some e =>
      simp only [hf]
      exact h

theorem scenesRestore_previewStage1 {s : BState} {nm : String}
    (hsc : ∀ sc ∈ s.scenes, sc.id < s.nextId) :
    scenesRestore s.scenes s.nextId (previewStage1 s nm) := by
  have h1 : s.scenes.filter (fun sc => sc.id != s.nextId) = s.scenes :=
    List.filter_eq_self.mpr (fun sc hm => by
      have := hsc sc hm
      simpa using Nat.ne_of_lt this)
  unfold scenesRestore previewStage1
  simp [List.filter_append, h1]

theorem scenesRestore_removeScene {l0 : List Scene} {pid : Nat} {st : BState}
    (h : scenesRestore l0 pid st) : (removeScene pid st).scenes = l0 := h

theorem nextId_libraryLoadOne_ge {n : String} {st : BState} :
    st.nextId ≤ (libraryLoadOne n st).1.nextId := by
  unfold libraryLoadOne
  cases hl : st.libFile with
  | none => exact le_refl _
  | some entries =>
    cases hf : entries.find? (fun e => e.name == n) with
    | none =>
      simp only [hf]
      exact le_refl _
    | some e =>
      simp only [hf]
      simp [newObjectRaw, newMesh]
      omega

theorem windowScene_previewCleanup {pid cd kd fd w : Nat} {objs : List Nat}
    {st : BState} : (previewCleanup pid cd kd fd w objs st).windowScene = w := rfl

theorem libraryLoadOne_some_id {n : String} {st : BState} {i : Nat}
    (h : (libraryLoadOne n st).2 = some i) : i = st.nextId + 1 := by
  unfold libraryLoadOne at h
  cases hl : st.libFile with
  | none =>
    rw [hl] at h
    exact absurd h (by simp)
  | some entries =>
    rw [hl] at h
    cases hf : entries.find? (fun e => e.name == n) with
    | none =>
      simp only [hf] at h
      exact absurd h (by simp)
    | some e =>
      simp only [hf] at h
      simp [newObjectRaw, newMesh] at h
      omega

theorem previewCamSetup_objId {pid : Nat} {c : Vec3} {z : ℚ} {st : BState} :
    (previewCamSetup pid c z st).2.2 = st.nextId + 1 := rfl

theorem previewCamSetup_dataId {pid : Nat} {c : Vec3} {z : ℚ} {st : BState} :
    (previewCamSetup pid c z st).2.1 = st.nextId := rfl

theorem previewCamSetup_nextId {pid : Nat} {c : Vec3} {z : ℚ} {st : BState} :
    (previewCamSetup pid c z st).1.nextId = st.nextId + 2 := rfl

theorem previewLightSetup_objId {pid : Nat} {nm : String} {e : ℚ} {r : Vec3}
    {st : BState} : (previewLightSetup pid nm e r st).2.2 = st.nextId + 1 := rfl

theorem previewLightSetup_dataId {pid : Nat} {nm : String} {e : ℚ} {r : Vec3}
    {st : BState} : (previewLightSetup pid nm e r st).2.1 = st.nextId := rfl

theorem previewLightSetup_nextId {pid : Nat} {nm : String} {e : ℚ} {r : Vec3}
    {st : BState} : (previewLightSetup pid nm e r st).1.nextId = st.nextId + 2 := rfl

theorem scenesRestore_previewCamSetup {l0 : List Scene} {pid : Nat} {c : Vec3}
    {z : ℚ} {st : BState} (h : scenesRestore l0 pid st) :
    scenesRestore l0 pid (previewCamSetup pid c z st).1 :=
  scenesRestore_updateObj (scenesRestore_updateObj
    (scenesRestore_updateScene (fun _ => rfl)
      (scenesRestore_newObjectRaw1 (scenesRestore_newCamData1 h))))

theorem scenesRestore_previewLightSetup {l0 : List Scene} {pid : Nat}
    {nm : String} {e : ℚ} {r : Vec3} {st : BState} (h : scenesRestore l0 pid st) :
    scenesRestore l0 pid (previewLightSetup pid nm e r st).1 :=
  scenesRestore_updateObj (scenesRestore_updateScene (fun _ => rfl)
    (scenesRestore_newObjectRaw1 (scenesRestore_newLightData1 h)))

theorem scenesRestore_previewRenderSetup {l0 : List Scene} {pid cam : Nat}
    {p : String} {st : BState} (h : scenesRestore l0 pid st) :
    scenesRestore l0 pid (previewRenderSetup pid cam p st) := by
  unfold previewRenderSetup
  dsimp only
  split
  · apply scenesRestore_updateWorld
    split
    · exact scenesRestore_updateScene (fun _ => rfl) h
    · exact scenesRestore_updateScene (fun _ => rfl)
        (scenesRestore_newWorld1 (scenesRestore_updateScene (fun _ => rfl) h))
  · split
    · exact scenesRestore_updateScene (fun _ => rfl) h
    · exact scenesRestore_updateScene (fun _ => rfl)
        (scenesRestore_newWorld1 (scenesRestore_updateScene (fun _ => rfl) h))

theorem scenesRestore_cleanupFold {l0 : List Scene} {pid n : Nat}
    (objs : List Nat) {st : BState} (hb : sceneRefsBelow l0 n)
    (ho : ∀ i ∈ objs, n ≤ i) (h : scenesRestore l0 pid st) :
    scenesRestore l0 pid (objs.foldl (fun acc i => cleanupPreviewObj i acc) st) := by
  induction objs generalizing st with
  | nil => exact h
  | cons a t ih =>
    simp only [List.foldl_cons]
    exact ih (fun i hi => ho i (List.mem_cons_of_mem a hi))
      (scenesRestore_cleanup hb (ho a (List.mem_cons_self a t)) h)

theorem scenesRestore_previewCleanup {l0 : List Scene} {pid n cd kd fd w : Nat}
    {objs : List Nat} {st : BState} (hb : sceneRefsBelow l0 n)
    (ho : ∀ i ∈ objs, n ≤ i) (h : scenesRestore l0 pid st) :
    (previewCleanup pid cd kd fd w objs st).scenes = l0 := by
  unfold previewCleanup
  apply scenesRestore_removeScene
  apply scenesRestore_setWindowScene
  split
  · exact scenesRestore_removeWorldByName (scenesRestore_removeLightData
      (scenesRestore_removeLightData (scenesRestore_removeCamData
        (scenesRestore_cleanupFold objs hb ho h))))
  · exact scenesRestore_removeLightData (scenesRestore_removeLightData
      (scenesRestore_removeCamData (scenesRestore_cleanupFold objs hb ho h)))

set_option maxHeartbeats 2000000 in
/-- Restoration of the caller scene list and window scene by
generate_preview_for_shape, on every control path. -/
theorem preview_restores (nm : String) (s : BState) (hwf : WF s) :
    (generate_preview_for_shape nm s).1.scenes = s.scenes ∧
    (generate_preview_for_shape nm s).1.windowScene = s.windowScene := by
  have hb : sceneRefsBelow s.scenes s.nextId :=
    fun sc hm => ⟨hwf.sceneObjLt sc hm, hwf.sceneCamLt sc hm⟩
  cases hlf : s.libFile with
  | none => simp [generate_preview_for_shape, hlf]
  | some entries =>
    constructor
    · simp only [generate_preview_for_shape, hlf]
      rw [stage1_eq, newScene_snd]
      split
      · exact scenesRestore_removeScene (scenesRestore_setWindowScene
          (scenesRestore_libraryLoadOne (scenesRestore_previewStage1 hwf.sceneIdLt)))
      · rename_i oid heq
        refine scenesRestore_previewCleanup hb ?_
          (scenesRestore_renderWriteStill (scenesRestore_previewRenderSetup
            (scenesRestore_previewLightSetup (scenesRestore_previewLightSetup
              (scenesRestore_previewCamSetup (scenesRestore_updateObj
                (scenesRestore_updateScene (fun _ => rfl)
                  (scenesRestore_libraryLoadOne
                    (scenesRestore_previewStage1 hwf.sceneIdLt)))))))))
        intro i hi
        have h2 := libraryLoadOne_some_id heq
        rw [previewStage1_nextId] at h2
        have hge := @nextId_libraryLoadOne_ge nm
          (previewStage1 s (freshName "BoolShapes_Preview_Scene" (allSceneNames s)))
        rw [previewStage1_nextId] at hge
        simp only [List.mem_cons, List.not_mem_nil, or_false] at hi
        rcases hi with rfl | rfl | rfl | rfl
        · omega
        · rw [previewCamSetup_objId, nextId_updateObj, nextId_updateScene]
          omega
        · rw [previewLightSetup_objId, previewCamSetup_nextId, nextId_updateObj,
              nextId_updateScene]
          omega
        · rw [previewLightSetup_objId, previewLightSetup_nextId,
              previewCamSetup_nextId, nextId_updateObj, nextId_updateScene]
          omega
    · simp only [generate_preview_for_shape, hlf]
      split
      · rfl
      · exact windowScene_previewCleanup

/-! ## Stage lemmas for the preview success path -/

theorem getObj_newObjectRaw_old {s : BState} {nm : String} {d : ObjData} {j : Nat}
    (hj : j ≠ s.nextId) :
    getObj (newObjectRaw nm d s).1 j = getObj s j := by
  unfold getObj newObjectRaw
  dsimp only
  rw [List.find?_append]
  have hb : (s.nextId == j) = false := by simpa using (Ne.symm hj)
  simp [List.find?_cons, hb]

theorem cams_previewCamSetup {pid : Nat} {c : Vec3} {z : ℚ} {st : BState} :
    (previewCamSetup pid c z st).1.cams
      = st.cams ++ [{ id := st.nextId, camType := "ORTHO", orthoScale := z * 1.5 }] := rfl

theorem cams_previewLightSetup {pid : Nat} {nm : String} {e : ℚ} {r : Vec3}
    {st : BState} : (previewLightSetup pid nm e r st).1.cams = st.cams := rfl

theorem cams_previewRenderSetup {pid cam : Nat} {p : String} {st : BState} :
    (previewRenderSetup pid cam p st).cams = st.cams := by
  unfold previewRenderSetup
  dsimp only
  split <;> split <;> rfl

theorem getObj_previewRenderSetup {pid cam : Nat} {p : String} {st : BState} {j : Nat} :
    getObj (previewRenderSetup pid cam p st) j = getObj st j := by
  unfold previewRenderSetup
  dsimp only
  split <;> split <;> rfl

theorem renders_previewRenderSetup {pid cam : Nat} {p : String} {st : BState} :
    (previewRenderSetup pid cam p st).renders = st.renders := by
  unfold previewRenderSetup
  dsimp only
  split <;> split <;> rfl

theorem renders_removeScene {i : Nat} {st : BState} :
    (removeScene i st).renders = st.renders := rfl

theorem renders_setWindowScene {i : Nat} {st : BState} :
    (setWindowScene i st).renders = st.renders := rfl

theorem renders_removeWorldByName {nm : String} {st : BState} :
    (removeWorldByName nm st).renders = st.renders := rfl

theorem renders_removeLightData {i : Nat} {st : BState} :
    (removeLightData i st).renders = st.renders := rfl

theorem renders_removeCamData {i : Nat} {st : BState} :
    (removeCamData i st).renders = st.renders := rfl

theorem renders_cleanupPreviewObj {i : Nat} {st : BState} :
    (cleanupPreviewObj i st).renders = st.renders := by
  unfold cleanupPreviewObj
  cases hg : getObj st i with
  | none => rfl
  | some o =>
    cases hd : o.data with
    | mesh m =>
      simp only [hd]
      split <;> rfl
    | camera c =>
      simp only [hd]
      rfl
    | light lid =>
      simp only [hd]
      rfl

theorem renders_previewCleanup {pid cd kd fd w : Nat} {objs : List Nat} {st : BState} :
    (previewCleanup pid cd kd fd w objs st).renders = st.renders := by
  have hf : ∀ (l : List Nat) (x : BState),
      (l.foldl (fun acc i => cleanupPreviewObj i acc) x).renders = x.renders := by
    intro l
    induction l with
    | nil => intro x; rfl
    | cons a t ih =>
      intro x
      simp only [List.foldl_cons, ih, renders_cleanupPreviewObj]
  unfold previewCleanup
  dsimp only
  rw [renders_removeScene, renders_setWindowScene]
  split
  · rw [renders_removeWorldByName, renders_removeLightData, renders_removeLightData,
        renders_removeCamData, hf]
  · rw [renders_removeLightData, renders_removeLightData, renders_removeCamData, hf]

theorem renderWriteStill_renders {i : Nat} {st : BState} {sc : Scene}
    (h : getScene st i = some sc) :
    (renderWriteStill i st).renders
      = st.renders ++
        [{ sceneName := sc.name, engine := sc.render.engine,
           resolutionX := sc.render.resolutionX, resolutionY := sc.render.resolutionY,
           filmTransparent := sc.render.filmTransparent, fileFormat := sc.render.fileFormat,
           filepath := sc.render.filepath, cam := camSnapshotOf st sc }] := by
  unfold renderWriteStill
  rw [h]

theorem previewCamSetup_getScene {pid : Nat} {c : Vec3} {z : ℚ} {st : BState}
    {sc : Scene} (h : getScene st pid = some sc) (hid : sc.id = pid) :
    getScene (previewCamSetup pid c z st).1 pid
      = some { sc with objects := sc.objects ++ [st.nextId + 1] } := by
  unfold previewCamSetup
  dsimp only
  simp only [getScene_updateObj, getScene_updateScene_link, getScene_newObjectRaw1,
    getScene_newCamData1, h, Option.map_some, Option.map_some', hid, if_pos, snd_newObjectRaw,
    nextId_newCamData1, eq_self_iff_true, ite_true]

theorem previewLightSetup_getScene {pid : Nat} (nm : String) (e : ℚ) (r : Vec3)
    {st : BState} {sc : Scene} (h : getScene st pid = some sc) (hid : sc.id = pid) :
    getScene (previewLightSetup pid nm e r st).1 pid
      = some { sc with objects := sc.objects ++ [st.nextId + 1] } := by
  unfold previewLightSetup
  dsimp only
  simp only [getScene_updateObj, getScene_updateScene_link, getScene_newObjectRaw1,
    getScene_newLightData1, h, Option.map_some, Option.map_some', hid, if_pos, snd_newObjectRaw,
    nextId_newLightData1, eq_self_iff_true, ite_true]

theorem previewLightSetup_getObj_lt {pid : Nat} {nm : String} {e : ℚ} {r : Vec3}
    {st : BState} {j : Nat} (hj : j < st.nextId) :
    getObj (previewLightSetup pid nm e r st).1 j = getObj st j := by
  unfold previewLightSetup
  dsimp only
  rw [getObj_updateObj_rot, getObj_updateScene, getObj_newObjectRaw_old ?hne,
     getObj_newLightData1]
  case hne =>
    rw [nextId_newLightData1]
    omega
  cases hg : getObj st j with
  | none => rfl
  | some o =>
    have hoid := getObj_id hg
    simp only [Option.map_some']
    rw [if_neg]
    rw [hoid, snd_newObjectRaw, nextId_newLightData1]
    omega

theorem previewCamSetup_getObj {pid : Nat} {c : Vec3} {z : ℚ} {st : BState}
    (hids : ∀ o ∈ st.objects, o.id < st.nextId) :
    getObj (previewCamSetup pid c z st).1 (st.nextId + 1)
      = some { id := st.nextId + 1,
               name := freshName "BoolShapes_PreviewCam"
                 (allObjNames (newCamData "ORTHO" (z * 1.5) st).1),
               data := .camera st.nextId,
               location := c.add ⟨z * 3, -(z * 3), z * 3 * 0.8⟩,
               rotation := .track "-Z" "Y" (c.sub (c.add ⟨z * 3, -(z * 3), z * 3 * 0.8⟩)) } := by
  have hb : ∀ o ∈ (newCamData "ORTHO" (z * 1.5) st).1.objects,
      o.id < (newCamData "ORTHO" (z * 1.5) st).1.nextId := by
    intro o ho
    have := hids o ho
    rw [nextId_newCamData1]
    omega
  have hnew := @getObj_newObjectRaw_new (newCamData "ORTHO" (z * 1.5) st).1
    "BoolShapes_PreviewCam" (.camera (newCamData "ORTHO" (z * 1.5) st).2) hb
  rw [nextId_newCamData1, snd_newCamData] at hnew
  unfold previewCamSetup
  dsimp only
  simp only [getObj_updateObj_rot, getObj_updateObj_loc, getObj_updateScene,
    snd_newObjectRaw, snd_newCamData, nextId_newCamData1, hnew, Option.map_some',
    eq_self_iff_true, ite_true, if_pos]

theorem previewRenderSetup_getScene {pid : Nat} (cam : Nat) (p : String)
    {st : BState} {sc : Scene} (h : getScene st pid = some sc) (hid : sc.id = pid)
    (hw : sc.world = none) :
    getScene (previewRenderSetup pid cam p st) pid
      = some { sc with
                 camera := some cam
                 world := some st.nextId
                 render := { engine := "BLENDER_EEVEE", resolutionX := 128,
                             resolutionY := 128, filmTransparent := true,
                             filepath := p, fileFormat := "PNG" } } := by
  unfold previewRenderSetup
  dsimp only
  simp only [getScene_updateScene_settings, getScene_updateScene_world,
    getScene_newWorld1, getScene_updateWorld, h, Option.map_some', hid,
    eq_self_iff_true, ite_true, hw, Option.isSome_none, Option.getD_some,
    snd_newWorld, nextId_updateScene, Bool.false_eq_true, if_false]

theorem preview_render_event (nm : String) (s : BState) (entries : List LibShape)
    (eF : LibShape) (hwf : WF s) (hlib : s.libFile = some entries)
    (heF : entries.find? (fun e => e.name == nm) = some eF)
    (hsn : ((allSceneNames s).contains "BoolShapes_Preview_Scene") = false)
    (hon : ((allObjNames s).contains nm) = false) :
    (generate_preview_for_shape nm s).1.renders = s.renders ++ [previewEvent nm eF] ∧
    (generate_preview_for_shape nm s).2
      = some (joinPath get_previews_dir (nm ++ ".png")) := by
  have hfrS : freshName "BoolShapes_Preview_Scene" (allSceneNames s)
      = "BoolShapes_Preview_Scene" :=
    freshName_not_taken (by
      intro hcon
      rw [hsn] at hcon
      exact Bool.noConfusion hcon)
  have hfresh : freshName nm (List.map (fun x => x.name) s.objects) = nm :=
    freshName_not_taken (by
      intro hcon
      have hon' : ((s.objects.map (fun x => x.name)).contains nm) = false := hon
      rw [hon'] at hcon
      exact Bool.noConfusion hcon)
  have hload := libraryLoadOne_eq
    (previewStage1 s "BoolShapes_Preview_Scene") nm entries eF hlib heF hfresh
  rw [previewStage1_nextId] at hload
  constructor
  · simp only [generate_preview_for_shape, hlib]
    rw [stage1_eq, newScene_snd, hfrS, hload]
    dsimp only
    rw [renders_previewCleanup]
    set S3 := updateObj (s.nextId + 1 + 1) (fun o => { o with location := Vec3.zero })
      (updateScene s.nextId
        (fun sc => { sc with objects := sc.objects ++ [s.nextId + 1 + 1] })
        (loadOneResult (previewStage1 s "BoolShapes_Preview_Scene") nm eF)) with hS3
    have hn3 : S3.nextId = s.nextId + 1 + 1 + 1 := by rw [hS3]; rfl
    have hidsP : ∀ o ∈ (previewStage1 s "BoolShapes_Preview_Scene").objects,
        o.id < (previewStage1 s "BoolShapes_Preview_Scene").nextId := by
      intro o ho
      have := hwf.objIdLt o ho
      rw [previewStage1_nextId]
      omega
    have hids3 : ∀ o ∈ S3.objects, o.id < S3.nextId := by
      intro o ho
      rw [hn3]
      have ho' : o ∈ (s.objects ++
          [{ id := s.nextId + 1 + 1, name := nm,
             data := ObjData.mesh (s.nextId + 1) : Obj }]).map
          (fun o => if o.id = s.nextId + 1 + 1
            then { o with location := Vec3.zero } else o) := ho
      rcases List.mem_map.mp ho' with ⟨a, ha, rfl⟩
      have hpres : ((if a.id = s.nextId + 1 + 1
          then { a with location := Vec3.zero } else a) : Obj).id = a.id := by
        split <;> rfl
      rw [hpres]
      rcases List.mem_append.mp ha with h | h
      · have := hwf.objIdLt a h
        omega
      · simp at h
        subst h
        dsimp only
        omega
    have hnew := @getObj_loadOneResult_new
      (previewStage1 s "BoolShapes_Preview_Scene") nm eF hidsP
    rw [previewStage1_nextId] at hnew
    have hobj3 : getObj S3 (s.nextId + 1 + 1)
        = some { id := s.nextId + 1 + 1, name := nm,
                 data := ObjData.mesh (s.nextId + 1), location := Vec3.zero } := by
      rw [hS3]
      simp only [getObj_updateObj_loc, getObj_updateScene, hnew, Option.map_some',
        eq_self_iff_true, ite_true]
    have hmesh3 : getMesh S3 (s.nextId + 1)
        = some { id := s.nextId + 1, bboxMin := eF.bboxMin, bboxMax := eF.bboxMax } := by
      have hm := @getMesh_loadOneResult_new
        (previewStage1 s "BoolShapes_Preview_Scene") nm eF
        (by
          intro m hm
          have := hwf.meshIdLt m hm
          rw [previewStage1_nextId]
          omega)
      rw [previewStage1_nextId] at hm
      exact hm
    have hbb : worldBBox S3 (s.nextId + 1 + 1) = (eF.bboxMin, eF.bboxMax) := by
      unfold worldBBox
      rw [hobj3]
      simp [hmesh3, Vec3.zero_add]
    rw [hbb]
    dsimp only
    set CC := bboxCenter eF.bboxMin eF.bboxMax with hCC
    set ZZ := maxExtent eF.bboxMin eF.bboxMax with hZZ
    set CS := previewCamSetup s.nextId CC ZZ S3 with hCS
    set KS := previewLightSetup s.nextId "BoolShapes_KeyLight" 2.0
      ⟨0.8, 0.2, 0.5⟩ CS.1 with hKS
    set FS := previewLightSetup s.nextId "BoolShapes_FillLight" 1.0
      ⟨-0.5, -0.8, -0.3⟩ KS.1 with hFS
    have hnCS : CS.1.nextId = s.nextId + 1 + 1 + 1 + 1 + 1 := by rw [hCS]; rfl
    have hnKS : KS.1.nextId = s.nextId + 1 + 1 + 1 + 1 + 1 + 1 + 1 := by
      rw [hKS]; rfl
    have hnFS : FS.1.nextId = s.nextId + 1 + 1 + 1 + 1 + 1 + 1 + 1 + 1 + 1 := by
      rw [hFS]; rfl
    have hPsc : getScene (previewStage1 s "BoolShapes_Preview_Scene") s.nextId
        = some { id := s.nextId, name := "BoolShapes_Preview_Scene" } :=
      getScene_previewStage1_self hwf.sceneIdLt
    have h3sc : getScene S3 s.nextId
        = some { id := s.nextId, name := "BoolShapes_Preview_Scene",
                 objects := [s.nextId + 1 + 1] } := by
      rw [hS3]
      simp only [getScene_updateObj, getScene_updateScene_link, getScene_loadOneResult,
        hPsc, Option.map_some', eq_self_iff_true, ite_true, List.nil_append]
    have h4sc : getScene CS.1 s.nextId
        = some { id := s.nextId, name := "BoolShapes_Preview_Scene",
                 objects := [s.nextId + 1 + 1, s.nextId + 1 + 1 + 1 + 1] } := by
      rw [hCS]
      have h := previewCamSetup_getScene (c := CC) (z := ZZ) h3sc rfl
      rw [hn3] at h
      simpa using h
    have h5sc : getScene KS.1 s.nextId
        = some { id := s.nextId, name := "BoolShapes_Preview_Scene",
                 objects := [s.nextId + 1 + 1, s.nextId + 1 + 1 + 1 + 1,
                             s.nextId + 1 + 1 + 1 + 1 + 1 + 1] } := by
      rw [hKS]
      have h := previewLightSetup_getScene "BoolShapes_KeyLight" 2.0
        ⟨0.8, 0.2, 0.5⟩ h4sc rfl
      rw [hnCS] at h
      simpa using h
    have h6sc : getScene FS.1 s.nextId
        = some { id := s.nextId, name := "BoolShapes_Preview_Scene",
                 objects := [s.nextId + 1 + 1, s.nextId + 1 + 1 + 1 + 1,
                             s.nextId + 1 + 1 + 1 + 1 + 1 + 1,
                             s.nextId + 1 + 1 + 1 + 1 + 1 + 1 + 1 + 1] } := by
      rw [hFS]
      have h := previewLightSetup_getScene "BoolShapes_FillLight" 1.0
        ⟨-0.5, -0.8, -0.3⟩ h5sc rfl
      rw [hnKS] at h
      simpa using h
    have hfinal : getScene (previewRenderSetup s.nextId CS.2.2
          (joinPath get_previews_dir (nm ++ ".png")) FS.1) s.nextId
        = some { id := s.nextId, name := "BoolShapes_Preview_Scene",
                 objects := [s.nextId + 1 + 1, s.nextId + 1 + 1 + 1 + 1,
                             s.nextId + 1 + 1 + 1 + 1 + 1 + 1,
                             s.nextId + 1 + 1 + 1 + 1 + 1 + 1 + 1 + 1],
                 camera := some CS.2.2, world := some FS.1.nextId,
                 render := { engine := "BLENDER_EEVEE", resolutionX := 128,
                             resolutionY := 128, filmTransparent := true,
                             filepath := joinPath get_previews_dir (nm ++ ".png"),
                             fileFormat := "PNG" } } := by
      exact previewRenderSetup_getScene CS.2.2
        (joinPath get_previews_dir (nm ++ ".png")) h6sc rfl rfl
    rw [renderWriteStill_renders hfinal]
    have hrframe : FS.1.renders = s.renders := by rw [hFS, hKS, hCS, hS3]; rfl
    rw [renders_previewRenderSetup, hrframe]
    have hcamobj : getObj (previewRenderSetup s.nextId CS.2.2
          (joinPath get_previews_dir (nm ++ ".png")) FS.1) (CS.2.2)
        = some { id := S3.nextId + 1,
                 name := freshName "BoolShapes_PreviewCam"
                   (allObjNames (newCamData "ORTHO" (ZZ * 1.5) S3).1),
                 data := ObjData.camera S3.nextId,
                 location := CC.add ⟨ZZ * 3, -(ZZ * 3), ZZ * 3 * 0.8⟩,
                 rotation := Rotation.track "-Z" "Y"
                   (CC.sub (CC.add ⟨ZZ * 3, -(ZZ * 3), ZZ * 3 * 0.8⟩)) } := by
      rw [getObj_previewRenderSetup]
      have hid2 : CS.2.2 = S3.nextId + 1 := by rw [hCS]; rfl
      rw [hid2, hFS]
      rw [previewLightSetup_getObj_lt (by rw [hnKS, hn3]; omega)]
      rw [hKS]
      rw [previewLightSetup_getObj_lt (by rw [hnCS, hn3]; omega)]
      rw [hCS]
      exact previewCamSetup_getObj hids3
    have hcams : (previewRenderSetup s.nextId CS.2.2
          (joinPath get_previews_dir (nm ++ ".png")) FS.1).cams
        = s.cams ++ [{ id := S3.nextId, camType := "ORTHO", orthoScale := ZZ * 1.5 }] := by
      rw [cams_previewRenderSetup, hFS, cams_previewLightSetup, hKS,
          cams_previewLightSetup, hCS, cams_previewCamSetup]
      have hc3 : S3.cams = s.cams := rfl
      rw [hc3, hn3]
    have hfindcam : (s.cams ++
          [({ id := S3.nextId, camType := "ORTHO", orthoScale := ZZ * 1.5 } : CamData)]).find?
            (fun c => c.id == S3.nextId)
        = some { id := S3.nextId, camType := "ORTHO", orthoScale := ZZ * 1.5 } := by
      rw [find?_cam_append]
      · simp [List.find?_cons]
      · intro c hc
        have := hwf.camIdLt c hc
        rw [hn3]
        omega
    simp only [camSnapshotOf, hcamobj, hcams, hfindcam, Option.some_bind,
      Option.map_some', previewEvent]
  · simp only [generate_preview_for_shape, hlib]
    rw [stage1_eq, newScene_snd, hfrS, hload]

theorem exLibState_wf : WF exLibState := by
  constructor <;> decide

/-- C3: for a shape present in the library (with no name collisions in the
session), generate_preview_for_shape records exactly one render, executed
with engine BLENDER_EEVEE at 128x128, transparent film, PNG format, writing
previews_dir/<shape>.png, and returns that path. -/
theorem preview_rendered_with_eevee_settings (nm : String) (s : BState)
    (entries : List LibShape) (eF : LibShape) (hwf : WF s)
    (hlib : s.libFile = some entries)
    (heF : entries.find? (fun e => e.name == nm) = some eF)
    (hsn : ((allSceneNames s).contains "BoolShapes_Preview_Scene") = false)
    (hon : ((allObjNames s).contains nm) = false) :
    ∃ ev : RenderEvent,
      (generate_preview_for_shape nm s).1.renders = s.renders ++ [ev] ∧
      ev.engine = "BLENDER_EEVEE" ∧ ev.resolutionX = 128 ∧ ev.resolutionY = 128 ∧
      ev.filmTransparent = true ∧ ev.fileFormat = "PNG" ∧
      ev.filepath = joinPath get_previews_dir (nm ++ ".png") ∧
      (generate_preview_for_shape nm s).2
        = some (joinPath get_previews_dir (nm ++ ".png")) := by
  obtain ⟨h1, h2⟩ := preview_render_event nm s entries eF hwf hlib heF hsn hon
  exact ⟨previewEvent nm eF, h1, rfl, rfl, rfl, rfl, rfl, rfl, h2⟩

theorem preview_rendered_with_eevee_settings_witness :
    (exLibState.libFile = some [{ name := "Cube" }] ∧
     ((allObjNames exLibState).contains "Cube") = false) ∧
    (∃ ev : RenderEvent,
      (generate_preview_for_shape "Cube" exLibState).1.renders
        = exLibState.renders ++ [ev] ∧
      ev.engine = "BLENDER_EEVEE" ∧ ev.resolutionX = 128 ∧ ev.resolutionY = 128 ∧
      ev.filmTransparent = true ∧ ev.fileFormat = "PNG" ∧
      ev.filepath = joinPath get_previews_dir ("Cube" ++ ".png") ∧
      (generate_preview_for_shape "Cube" exLibState).2
        = some (joinPath get_previews_dir ("Cube" ++ ".png"))) :=
  ⟨⟨rfl, by decide⟩,
    preview_rendered_with_eevee_settings "Cube" exLibState [{ name := "Cube" }]
      { name := "Cube" } exLibState_wf rfl (by decide) (by decide) (by decide)⟩

/-- C6: generate_preview_for_shape renders in a freshly created temporary
scene named BoolShapes_Preview_Scene, and on every control path the caller
scene list and the window scene are restored. -/
theorem preview_temp_scene_and_restoration (nm : String) (s : BState) (hwf : WF s) :
    ((generate_preview_for_shape nm s).1.scenes = s.scenes ∧
     (generate_preview_for_shape nm s).1.windowScene = s.windowScene) ∧
    (∀ entries eF, s.libFile = some entries →
      entries.find? (fun e => e.name == nm) = some eF →
      ((allSceneNames s).contains "BoolShapes_Preview_Scene") = false →
      ((allObjNames s).contains nm) = false →
      ∃ ev : RenderEvent,
        (generate_preview_for_shape nm s).1.renders = s.renders ++ [ev] ∧
        ev.sceneName = "BoolShapes_Preview_Scene") := by
  refine ⟨preview_restores nm s hwf, fun entries eF hlib heF hsn hon => ?_⟩
  obtain ⟨h1, _⟩ := preview_render_event nm s entries eF hwf hlib heF hsn hon
  exact ⟨previewEvent nm eF, h1, rfl⟩

theorem preview_temp_scene_and_restoration_witness :
    (exLibState.libFile = some [{ name := "Cube" }] ∧
     ((allSceneNames exLibState).contains "BoolShapes_Preview_Scene") = false) ∧
    ((generate_preview_for_shape "Cube" exLibState).1.scenes = exLibState.scenes ∧
     (generate_preview_for_shape "Cube" exLibState).1.windowScene
       = exLibState.windowScene) :=
  ⟨⟨rfl, by decide⟩,
    (preview_temp_scene_and_restoration "Cube" exLibState exLibState_wf).1⟩

/-- C7: the preview camera is orthographic with ortho_scale 1.5 * size, sits
at center + (3 size, -3 size, 2.4 size) and is rotated by the tracking
quaternion pointing its -Z axis (Y up) from there at the bounding box
center. -/
theorem preview_camera_framing (nm : String) (s : BState)
    (entries : List LibShape) (eF : LibShape) (hwf : WF s)
    (hlib : s.libFile = some entries)
    (heF : entries.find? (fun e => e.name == nm) = some eF)
    (hsn : ((allSceneNames s).contains "BoolShapes_Preview_Scene") = false)
    (hon : ((allObjNames s).contains nm) = false) :
    ∃ ev : RenderEvent,
      (generate_preview_for_shape nm s).1.renders = s.renders ++ [ev] ∧
      ev.cam = some
        { location := (bboxCenter eF.bboxMin eF.bboxMax).add
            ⟨3 * maxExtent eF.bboxMin eF.bboxMax,
              -(3 * maxExtent eF.bboxMin eF.bboxMax),
              2.4 * maxExtent eF.bboxMin eF.bboxMax⟩
          camType := "ORTHO"
          orthoScale := 1.5 * maxExtent eF.bboxMin eF.bboxMax
          rotation := Rotation.track "-Z" "Y"
            ((bboxCenter eF.bboxMin eF.bboxMax).sub
              ((bboxCenter eF.bboxMin eF.bboxMax).add
                ⟨3 * maxExtent eF.bboxMin eF.bboxMax,
                  -(3 * maxExtent eF.bboxMin eF.bboxMax),
                  2.4 * maxExtent eF.bboxMin eF.bboxMax⟩)) } := by
  obtain ⟨h1, _⟩ := preview_render_event nm s entries eF hwf hlib heF hsn hon
  refine ⟨previewEvent nm eF, h1, ?_⟩
  have hv : (⟨maxExtent eF.bboxMin eF.bboxMax * 3,
        -(maxExtent eF.bboxMin eF.bboxMax * 3),
        maxExtent eF.bboxMin eF.bboxMax * 3 * 0.8⟩ : Vec3)
      = ⟨3 * maxExtent eF.bboxMin eF.bboxMax,
          -(3 * maxExtent eF.bboxMin eF.bboxMax),
          2.4 * maxExtent eF.bboxMin eF.bboxMax⟩ := by
    simp only [Vec3.mk.injEq]
    refine ⟨by ring, by ring, by ring⟩
  simp only [previewEvent]
  rw [hv, mul_comm (maxExtent eF.bboxMin eF.bboxMax) 1.5]

theorem preview_camera_framing_witness :
    (exLibState.libFile = some [{ name := "Cube" }] ∧
     ((allObjNames exLibState).contains "Cube") = false) ∧
    (∃ ev : RenderEvent,
      (generate_preview_for_shape "Cube" exLibState).1.renders
        = exLibState.renders ++ [ev] ∧
      ev.cam = some
        { location := (bboxCenter Vec3.zero Vec3.zero).add
            ⟨3 * maxExtent Vec3.zero Vec3.zero, -(3 * maxExtent Vec3.zero Vec3.zero),
              2.4 * maxExtent Vec3.zero Vec3.zero⟩
          camType := "ORTHO"
          orthoScale := 1.5 * maxExtent Vec3.zero Vec3.zero
          rotation := Rotation.track "-Z" "Y"
            ((bboxCenter Vec3.zero Vec3.zero).sub
              ((bboxCenter Vec3.zero Vec3.zero).add
                ⟨3 * maxExtent Vec3.zero Vec3.zero,
                  -(3 * maxExtent Vec3.zero Vec3.zero),
                  2.4 * maxExtent Vec3.zero Vec3.zero⟩)) }) :=
  ⟨⟨rfl, by decide⟩,
    preview_camera_framing "Cube" exLibState [{ name := "Cube" }]
      { name := "Cube" } exLibState_wf rfl (by decide) (by decide) (by decide)⟩
